import Mathlib

/-!
# ogglepie: the two GL_ARB_gl_spirv example programs

A shallow embedding of `src/SPIRVShader/main.cpp` (the shader-pipeline variant) and of
`src/ImplementationColorRead/main.cpp` (the bare-context variant).

Modelling conventions.

* Every call into GLFW, GLEW, OpenGL or the C/C++ runtime that the programs make is recorded,
  in program order, as an `Event`.  A function of the program becomes a Lean function that
  returns its result together with the list of events it emits.
* What the platform answers (handles, compile statuses, info logs, clock readings, window
  events) is an explicit input: the records `ShaderDriver`, `ProgramDriver`, `Env`, `Frame`.
* `float` and `double` values are rationals (every finite floating-point value is a rational
  number).  The rounding of each arithmetic operation on run-time values (clock readings,
  `deltaT`, `rotation.y`) is explicit: `Fp.toFloat` rounds a result to `float`,
  `Fp.toDouble` to `double`.  `ieee` is the IEEE-754 instance (round to nearest, ties to
  even; overflow to infinity and NaN are not modelled), `exactFp` the idealised one without
  rounding.  Literal constants and the constant aspect ratio are taken at their decimal
  value.
* The glm library is not among the sources; the functions of it that `updateUBO` calls are
  the fields of the parameter record `Glm`.
* `GLint` is `Int`, `GLuint` handles are `Nat` (no arithmetic is done on handles).
-/

namespace Ogglepie

abbrev GLuint := Nat
abbrev GLint := Int
abbrev GLFWwindow := Nat

/-- Value of the `GL_TRUE` macro of the OpenGL headers (`#define GL_TRUE 1`). -/
def GL_TRUE : GLint := 1
/-- Value of the `GL_FALSE` macro of the OpenGL headers (`#define GL_FALSE 0`). -/
def GL_FALSE : GLint := 0
/-- Value of `GL_SHADER_BINARY_FORMAT_SPIR_V` in the OpenGL headers. -/
def GL_SHADER_BINARY_FORMAT_SPIR_V : GLint := 0x9551
/-- Value of `GL_COLOR_BUFFER_BIT` in the OpenGL headers. -/
def GL_COLOR_BUFFER_BIT : Nat := 0x4000
/-- Value of `GL_DEPTH_BUFFER_BIT` in the OpenGL headers. -/
def GL_DEPTH_BUFFER_BIT : Nat := 0x100
/-- Value of `GL_DYNAMIC_STORAGE_BIT` in the OpenGL headers. -/
def GL_DYNAMIC_STORAGE_BIT : Nat := 0x100
/-- Value of `GLFW_KEY_ESCAPE` in `glfw3.h`. -/
def GLFW_KEY_ESCAPE : Int := 256
/-- Value of `GLFW_PRESS` in `glfw3.h`. -/
def GLFW_PRESS : Int := 1
/-- Value of `GLEW_OK` in `glew.h`. -/
def GLEW_OK : Nat := 0
/-- Value of `EXIT_FAILURE` in `stdlib.h`. -/
def EXIT_FAILURE : Int := 1
/-- Value of `EXIT_SUCCESS` in `stdlib.h`. -/
def EXIT_SUCCESS : Int := 0

/-- Symbolic names of the enumerants that are only passed through to the API. -/
inductive GLenum where
  | GL_SHADER | GL_VERTEX_ARRAY | GL_VERTEX_SHADER | GL_FRAGMENT_SHADER
  | GL_COMPILE_STATUS | GL_INFO_LOG_LENGTH | GL_LINK_STATUS
  | GL_FLOAT | GL_FRONT_AND_BACK | GL_FILL | GL_DEPTH_TEST | GL_UNIFORM_BUFFER
  | GL_TRIANGLES | GL_CULL_FACE | GL_VENDOR | GL_RENDERER | GL_VERSION
  | GL_NUM_SHADER_BINARY_FORMATS | GL_SHADER_BINARY_FORMATS
  | GL_IMPLEMENTATION_COLOR_READ_TYPE | GL_IMPLEMENTATION_COLOR_READ_FORMAT
  | GLFW_CONTEXT_VERSION_MAJOR | GLFW_CONTEXT_VERSION_MINOR
  | GLFW_OPENGL_PROFILE | GLFW_OPENGL_FORWARD_COMPAT
  | GLFW_OPENGL_CORE_PROFILE | GLFW_TRUE
  | num (n : Int)
  deriving DecidableEq, Repr

/-- A `glm::mat4` with rational entries. -/
abbrev Mat4 := Matrix (Fin 4) (Fin 4) ℚ

/-- A `glm::vec3`. -/
structure Vec3 where
  x : ℚ
  y : ℚ
  z : ℚ
  deriving DecidableEq, Repr

/-- The anonymous struct of the global `uboVS`: fields in declaration order. -/
structure UboVS where
  projection : Mat4
  model : Mat4
  view : Mat4

/-- The matrices of the block in the order in which the struct stores them. -/
def UboVS.matrices (u : UboVS) : List Mat4 :=
  [u.projection, u.model, u.view]

/-- The value of `sizeof(uboVS)`: three matrices of sixteen 4-byte floats. -/
def sizeofUboVS : Nat := 3 * (16 * 4)

/-- The functions of glm that the program calls; glm itself is not among the sources. -/
structure Glm where
  radians : ℚ → ℚ
  perspective : ℚ → ℚ → ℚ → ℚ → Mat4
  translate : Mat4 → Vec3 → Mat4
  rotate : Mat4 → ℚ → Vec3 → Mat4

/-- The rounding of floating-point results: `toFloat` gives the `float` (binary32) nearest
to a value, `toDouble` the `double` (binary64). -/
structure Fp where
  toFloat : ℚ → ℚ
  toDouble : ℚ → ℚ

/-- Rounding to the nearest integer, ties to the even one. -/
def roundHalfEven (x : ℚ) : ℤ :=
  if x - ⌊x⌋ < 1 / 2 then ⌊x⌋
  else if 1 / 2 < x - ⌊x⌋ then ⌊x⌋ + 1
  else if ⌊x⌋ % 2 = 0 then ⌊x⌋ else ⌊x⌋ + 1

/-- The exponent of the binade of `x` in a format whose smallest normal exponent is `emin`
(below it the numbers are subnormal and share the exponent `emin`). -/
def binade (emin : ℤ) (x : ℚ) : ℤ :=
  max (Int.log 2 |x|) emin

/-- IEEE-754 rounding to nearest, ties to even, in a binary format with `p` significand bits
and smallest normal exponent `emin`: the value is rounded to a multiple of the spacing
`2 ^ (e - (p - 1))` of its binade `e`.  The largest exponent is not modelled. -/
def roundIEEE (p : ℕ) (emin : ℤ) (x : ℚ) : ℚ :=
  (2 : ℚ) ^ (binade emin x - ((p : ℤ) - 1)) *
    roundHalfEven (x / (2 : ℚ) ^ (binade emin x - ((p : ℤ) - 1)))

/-- IEEE-754 arithmetic: binary32 has 24 significand bits and smallest normal exponent -126,
binary64 has 53 and -1022. -/
def ieee : Fp :=
  { toFloat := roundIEEE 24 (-126)
    toDouble := roundIEEE 53 (-1022) }

/-- Idealised arithmetic: no operation rounds. -/
def exactFp : Fp :=
  { toFloat := fun x => x
    toDouble := fun x => x }

/-- What is handed to a buffer upload. -/
inductive BufferData where
  | floats (l : List ℚ)
  | block (u : UboVS)

/-- The observable actions of the programs: API calls and console output. -/
inductive Event where
  -- C / C++ runtime
  | cout (parts : List String)
  | cerr (parts : List String)
  | exit (status : Int)
  -- GLFW
  | glfwSetErrorCallback
  | glfwInit
  | glfwWindowHint (hint value : GLenum)
  | glfwCreateWindow (width height : Int) (title : String)
  | glfwTerminate
  | glfwMakeContextCurrent (window : GLFWwindow)
  | glfwSetKeyCallback (window : GLFWwindow)
  | glfwSetFramebufferSizeCallback (window : GLFWwindow)
  | glfwDestroyWindow (window : GLFWwindow)
  | glfwSwapInterval (interval : Int)
  | glfwGetTime
  | glfwSetWindowTitle (window : GLFWwindow) (title : String)
  | glfwPollEvents
  | glfwWindowShouldClose (window : GLFWwindow)
  | glfwSetWindowShouldClose (window : GLFWwindow) (value : Int)
  | glfwSwapBuffers (window : GLFWwindow)
  -- GLEW
  | glewInit
  | glewGetErrorString (err : Nat)
  -- OpenGL
  | glGetString (name : GLenum)
  | glGetIntegerv (pname : GLenum)
  | glDisable (cap : GLenum)
  | glEnable (cap : GLenum)
  | glViewport (x y width height : Int)
  | glCreateBuffers (n : Nat)
  | glNamedBufferStorage (buffer : GLuint) (size : Nat) (data : BufferData) (flags : Nat)
  | glNamedBufferSubData (buffer : GLuint) (offset size : Nat) (data : BufferData)
  | glCreateVertexArrays (n : Nat)
  | glObjectLabel (identifier : GLenum) (name : GLuint) (length : Int) (label : String)
  | glEnableVertexArrayAttrib (vaobj : GLuint) (index : Nat)
  | glVertexArrayAttribFormat (vaobj : GLuint) (index : Nat) (size : Int) (type : GLenum)
      (normalized : GLint) (relativeoffset : Nat)
  | glVertexArrayAttribBinding (vaobj : GLuint) (index binding : Nat)
  | glVertexArrayVertexBuffer (vaobj : GLuint) (binding : Nat) (buffer : GLuint)
      (offset : Int) (stride : Int)
  | glClearColor (r g b a : ℚ)
  | glClear (mask : Nat)
  | glPolygonMode (face mode : GLenum)
  | glBindBufferBase (target : GLenum) (index : Nat) (buffer : GLuint)
  | glUseProgram (program : GLuint)
  | glBindVertexArray (array : GLuint)
  | glDrawArrays (mode : GLenum) (first : Int) (count : Int)
  | glCreateShader (type : GLenum)
  | glShaderBinary (count : Nat) (shader : GLuint) (binaryformat : GLint)
      (binary : List Nat) (length : Nat)
  | glSpecializeShader (shader : GLuint) (entryPoint : String) (numSpecializationConstants : Nat)
  | glGetShaderiv (shader : GLuint) (pname : GLenum)
  | glGetShaderInfoLog (shader : GLuint) (bufSize : Int)
  | glCreateProgram
  | glAttachShader (program shader : GLuint)
  | glDetachShader (program shader : GLuint)
  | glDeleteShader (shader : GLuint)
  | glLinkProgram (program : GLuint)
  | glGetProgramiv (program : GLuint) (pname : GLenum)
  | glGetProgramInfoLog (program : GLuint) (bufSize : Int)

/-- The answers of the driver for one shader stage: the handle `glCreateShader` returns, the
value it reports for `GL_COMPILE_STATUS` and for `GL_INFO_LOG_LENGTH`, and the C string that
`glGetShaderInfoLog` leaves in the buffer (the characters before the first NUL, so
`*strInfoLog == 0` exactly when it is empty). -/
structure ShaderDriver where
  handle : GLuint
  compileStatus : GLint
  infoLogLength : Int
  infoLog : String

/-- The answers of the driver for the program object. -/
structure ProgramDriver where
  handle : GLuint
  linkStatus : GLint
  infoLogLength : Int
  infoLog : String

/-- An event delivered by the window system while `glfwPollEvents` runs. -/
inductive WindowEvent where
  | key (key scancode action mods : Int)
  | framebufferSize (width height : Int)
  | close
  deriving DecidableEq, Repr

/-- The clock readings and the pending window events of one iteration of the render loop:
`thisFPStime` and `currTime` are the two `glfwGetTime` readings of `main`, `frameTimeStart`
the one of `draw`. -/
structure Frame where
  thisFPStime : ℚ
  currTime : ℚ
  frameTimeStart : ℚ
  events : List WindowEvent

/-- A sample frame at time `t` in which nothing happens. -/
def idleFrame (t : ℚ) : Frame :=
  { thisFPStime := t, currTime := t, frameTimeStart := t, events := [] }

/-- A sample frame at time `t` in which Escape is pressed. -/
def escapeFrame (t : ℚ) : Frame :=
  { thisFPStime := t, currTime := t, frameTimeStart := t,
    events := [WindowEvent.key GLFW_KEY_ESCAPE 0 GLFW_PRESS 0] }

/-- What a run of `main` on a finite list of frames yields: the events, the exit status
(`none` while the render loop is still running when the frames are used up) and the number
of completed iterations of the render loop. -/
structure Run (σ : Type) where
  trace : List Event
  exit : Option Int
  frames : Nat
  final : Option σ

namespace SPIRVShader

/-- The constant `appTitle`. -/
def appTitle : String := "OpenGL example - GL_ARB_gl_spirv"

/-- The fields of `class OpenGLExample`. -/
structure OpenGLExample where
  Program : GLuint
  VAO : GLuint
  VBO : GLuint × GLuint
  UBO : GLuint
  zoom : ℚ
  rotation : Vec3
  window : GLFWwindow

/-- `OpenGLExample::PrintShaderInfoLog`. -/
def PrintShaderInfoLog (d : ShaderDriver) (shader : GLuint) (Label : String) : List Event :=
  let logLength := d.infoLogLength
  [Event.glGetShaderiv shader GLenum.GL_COMPILE_STATUS,
   Event.glGetShaderiv shader GLenum.GL_INFO_LOG_LENGTH] ++
  (if logLength > 0 then
    Event.glGetShaderInfoLog shader logLength ::
      (if logLength = 1 ∧ d.infoLog = "" then
        [Event.cout ["!! Single \x27\x5c0\x27 character ShaderInfoLog (", Label, ")"]]
      else
        [Event.cout ["ShaderInfolog (", Label, "): ", d.infoLog]])
  else [])

/-- `OpenGLExample::PrintProgramInfoLog`. -/
def PrintProgramInfoLog (d : ProgramDriver) (program : GLuint) : List Event :=
  let logLength := d.infoLogLength
  [Event.glGetProgramiv program GLenum.GL_LINK_STATUS,
   Event.glGetProgramiv program GLenum.GL_INFO_LOG_LENGTH] ++
  (if logLength > 0 then
    Event.glGetProgramInfoLog program logLength ::
      (if logLength = 1 ∧ d.infoLog = "" then
        [Event.cout ["!! Single \x27\x5c0\x27 character ProgramInfoLog."]]
      else
        [Event.cout ["ProgramInfoLog: ", d.infoLog]])
  else [])

/-- Result of `InitShader`: the returned status, the handle written through `Shader`, and the
events. -/
structure InitShaderResult where
  ret : GLint
  Shader : GLuint
  trace : List Event

/-- `OpenGLExample::InitShader`. -/
def InitShader (d : ShaderDriver) (ShaderType : GLenum) (ShaderBinary : List Nat)
    (ShaderBinaryLength : Nat) (ShaderName : String) : InitShaderResult :=
  let Shader := d.handle
  let CompileStatus := d.compileStatus
  { ret := CompileStatus
    Shader := Shader
    trace :=
      [Event.glCreateShader ShaderType,
       Event.glObjectLabel GLenum.GL_SHADER Shader (-1) ShaderName,
       Event.glShaderBinary 1 Shader GL_SHADER_BINARY_FORMAT_SPIR_V ShaderBinary
         ShaderBinaryLength,
       Event.glSpecializeShader Shader "main" 0,
       Event.glGetShaderiv Shader GLenum.GL_COMPILE_STATUS] ++
      (if CompileStatus ≠ GL_TRUE then [Event.cerr ["Failed to compile ", ShaderName]]
       else []) ++
      PrintShaderInfoLog d Shader ShaderName }

/-- Result of `InitProgram`: the returned handle and the events. -/
structure InitProgramResult where
  ret : GLuint
  trace : List Event

/-- `OpenGLExample::InitProgram`.  `result &= ...` is the bitwise AND of two `GLint`. -/
def InitProgram (vd fd : ShaderDriver) (pd : ProgramDriver)
    (VertexShaderBinary : List Nat) (VertexShaderBinaryLength : Nat)
    (FragmentShaderBinary : List Nat) (FragmentShaderBinaryLength : Nat) :
    InitProgramResult :=
  let result : GLint := GL_TRUE
  let v := InitShader vd GLenum.GL_VERTEX_SHADER VertexShaderBinary
    VertexShaderBinaryLength "VertexShader"
  let result := Int.land result v.ret
  let vertShader := v.Shader
  let f := InitShader fd GLenum.GL_FRAGMENT_SHADER FragmentShaderBinary
    FragmentShaderBinaryLength "FragmentShader"
  let result := Int.land result f.ret
  let fragShader := f.Shader
  if result = 0 then
    { ret := GL_FALSE.toNat
      trace := v.trace ++ f.trace ++
        [Event.cerr ["Could not load all binary shaders required for this program"]] }
  else
    let program := pd.handle
    { ret := program
      trace := v.trace ++ f.trace ++
        [Event.glCreateProgram,
         Event.glAttachShader program vertShader,
         Event.glAttachShader program fragShader,
         Event.glDeleteShader vertShader,
         Event.glDeleteShader fragShader,
         Event.glLinkProgram program] ++
        PrintProgramInfoLog pd program ++
        [Event.glDetachShader program vertShader,
         Event.glDetachShader program fragShader] }

/-- `OpenGLExample::loadAssets`; `sizeof` of an array of `uint32_t` is four times its
length. -/
def loadAssets (ex : OpenGLExample) (vd fd : ShaderDriver) (pd : ProgramDriver)
    (VertexShaderBinary FragmentShaderBinary : List Nat) : OpenGLExample × List Event :=
  let r := InitProgram vd fd pd VertexShaderBinary (4 * VertexShaderBinary.length)
    FragmentShaderBinary (4 * FragmentShaderBinary.length)
  ({ ex with Program := r.ret }, r.trace)

/-- `OpenGLExample::updateUBO`: returns the new content of the global `uboVS`. -/
def updateUBO (glm : Glm) (ex : OpenGLExample) (uboVS : UboVS) : UboVS × List Event :=
  let uboVS := { uboVS with
    projection := glm.perspective (glm.radians 60) ((1280 : ℚ) / (720 : ℚ)) (1 / 10) 256 }
  let uboVS := { uboVS with view := glm.translate 1 ⟨0, 0, ex.zoom⟩ }
  let uboVS := { uboVS with model := 1 }
  let uboVS := { uboVS with
    model := glm.rotate uboVS.model (glm.radians ex.rotation.x) ⟨1, 0, 0⟩ }
  let uboVS := { uboVS with
    model := glm.rotate uboVS.model (glm.radians ex.rotation.y) ⟨0, 1, 0⟩ }
  let uboVS := { uboVS with
    model := glm.rotate uboVS.model (glm.radians ex.rotation.z) ⟨0, 0, 1⟩ }
  (uboVS, [Event.glNamedBufferSubData ex.UBO 0 sizeofUboVS (BufferData.block uboVS)])

/-- The names that `glCreateBuffers` and `glCreateVertexArrays` hand out. -/
structure BufferHandles where
  vbo0 : GLuint
  vbo1 : GLuint
  ubo : GLuint
  vao : GLuint

/-- `OpenGLExample::generateBuffers`. -/
def generateBuffers (glm : Glm) (h : BufferHandles) (ex : OpenGLExample) (uboVS : UboVS) :
    OpenGLExample × UboVS × List Event :=
  let vPos : List ℚ := [1, -1, 0, -1, -1, 0, 0, 1, 0]
  let vCol : List ℚ := [1, 0, 0, 0, 1, 0, 0, 0, 1]
  let ex := { ex with VBO := (h.vbo0, h.vbo1) }
  let ex := { ex with UBO := h.ubo }
  let ex := { ex with VAO := h.vao }
  let u := updateUBO glm ex uboVS
  (ex, u.1,
    [Event.glCreateBuffers 2,
     Event.glNamedBufferStorage ex.VBO.1 (4 * vPos.length) (BufferData.floats vPos) 0,
     Event.glNamedBufferStorage ex.VBO.2 (4 * vCol.length) (BufferData.floats vCol) 0,
     Event.glCreateBuffers 1,
     Event.glNamedBufferStorage ex.UBO sizeofUboVS (BufferData.block uboVS)
       GL_DYNAMIC_STORAGE_BIT,
     Event.glCreateVertexArrays 1,
     Event.glObjectLabel GLenum.GL_VERTEX_ARRAY ex.VAO (-1) "TriangleVAO",
     Event.glEnableVertexArrayAttrib ex.VAO 0,
     Event.glVertexArrayAttribFormat ex.VAO 0 3 GLenum.GL_FLOAT GL_FALSE 0,
     Event.glVertexArrayAttribBinding ex.VAO 0 0,
     Event.glVertexArrayVertexBuffer ex.VAO 0 ex.VBO.1 0 (3 * 4),
     Event.glEnableVertexArrayAttrib ex.VAO 1,
     Event.glVertexArrayAttribFormat ex.VAO 1 3 GLenum.GL_FLOAT GL_FALSE 0,
     Event.glVertexArrayAttribBinding ex.VAO 1 1,
     Event.glVertexArrayVertexBuffer ex.VAO 1 ex.VBO.2 0 (3 * 4)] ++
    u.2)

/-- `OpenGLExample::draw`.  In `rotation.y += (float)(deltaT * 50.0f)` the product is a
`double`, the cast rounds it to `float`, and the sum is a `float`. -/
def draw (glm : Glm) (fp : Fp) (ex : OpenGLExample) (uboVS : UboVS) (deltaT : ℚ) :
    OpenGLExample × UboVS × List Event :=
  let ex1 := { ex with rotation := { ex.rotation with
    y := fp.toFloat (ex.rotation.y + fp.toFloat (fp.toDouble (deltaT * 50))) } }
  let u := updateUBO glm ex1 uboVS
  (ex1, u.1,
    [Event.glfwGetTime,
     Event.glClearColor 0 0 (2 / 10) 1,
     Event.glClear (GL_COLOR_BUFFER_BIT ||| GL_DEPTH_BUFFER_BIT),
     Event.glPolygonMode GLenum.GL_FRONT_AND_BACK GLenum.GL_FILL,
     Event.glEnable GLenum.GL_DEPTH_TEST,
     Event.glBindBufferBase GLenum.GL_UNIFORM_BUFFER 0 ex.UBO,
     Event.glUseProgram ex.Program,
     Event.glBindVertexArray ex.VAO,
     Event.glDrawArrays GLenum.GL_TRIANGLES 0 3,
     Event.glfwSwapBuffers ex.window] ++
    u.2)

/-- The static function `key_callback`: the new should-close flag of the window and the
events. -/
def key_callback (window : GLFWwindow) (shouldClose : Bool) (key _scancode action _mods : Int) :
    Bool × List Event :=
  if key = GLFW_KEY_ESCAPE ∧ action = GLFW_PRESS then
    (true, [Event.glfwSetWindowShouldClose window GL_TRUE])
  else (shouldClose, [])

/-- The static function `framebuffer_size_callback`. -/
def framebuffer_size_callback (_window : GLFWwindow) (width height : Int) : List Event :=
  [Event.glViewport 0 0 width height]

/-- Delivery of one window event: GLFW invokes the registered callback; a close request of
the window system sets the should-close flag. -/
def dispatch (window : GLFWwindow) (shouldClose : Bool) : WindowEvent → Bool × List Event
  | WindowEvent.key k s a m => key_callback window shouldClose k s a m
  | WindowEvent.framebufferSize w h => (shouldClose, framebuffer_size_callback window w h)
  | WindowEvent.close => (true, [])

/-- The effect of `glfwPollEvents`: the pending events are delivered in order. -/
def pollEvents (window : GLFWwindow) : Bool → List WindowEvent → Bool × List Event
  | shouldClose, [] => (shouldClose, [])
  | shouldClose, e :: es =>
    let d := dispatch window shouldClose e
    let r := pollEvents window d.1 es
    (r.1, d.2 ++ r.2)

/-- The scan `for (i = 0; i < NumShaderBinaryFormats; i++)` with its `break`; `fuel` bounds
the number of iterations left, `i` is the loop index, `has` the flag so far.  An index past
the end of the reported list matches nothing. -/
def scanFormats (NumShaderBinaryFormats : GLint) (ShaderBinaryFormats : List GLint) :
    Nat → Nat → Bool → Bool
  | 0, _, has => has
  | fuel + 1, i, has =>
    if (i : Int) < NumShaderBinaryFormats then
      if ShaderBinaryFormats[i]? = some GL_SHADER_BINARY_FORMAT_SPIR_V then true
      else scanFormats NumShaderBinaryFormats ShaderBinaryFormats fuel (i + 1) has
    else has

/-- The block of `main` that computes `HasSpirvShaderBinaryFormat` and prints the warning:
the flag and the events. -/
def checkFormats (NumShaderBinaryFormats : GLint) (ShaderBinaryFormats : List GLint) :
    Bool × List Event :=
  let HasSpirvShaderBinaryFormat := false
  let scan : Bool × List Event :=
    if NumShaderBinaryFormats > 0 then
      (scanFormats NumShaderBinaryFormats ShaderBinaryFormats NumShaderBinaryFormats.toNat 0
          HasSpirvShaderBinaryFormat,
        [Event.glGetIntegerv GLenum.GL_NUM_SHADER_BINARY_FORMATS,
         Event.glGetIntegerv GLenum.GL_SHADER_BINARY_FORMATS])
    else
      (HasSpirvShaderBinaryFormat, [Event.glGetIntegerv GLenum.GL_NUM_SHADER_BINARY_FORMATS])
  let HasSpirvShaderBinaryFormat := scan.1
  if !HasSpirvShaderBinaryFormat then
    (HasSpirvShaderBinaryFormat, scan.2 ++
      [Event.cout ["!! SHADER_BINARY_FORMAT_SPIR_V is not include in SHADER_BINARY_FORMATS."]])
  else (HasSpirvShaderBinaryFormat, scan.2)

/-- Everything the platform answers to `main` before the render loop. -/
structure Env where
  glfwInitResult : Int
  window : GLFWwindow
  glewInitResult : Nat
  glewErrorString : String
  vendor : String
  renderer : String
  version : String
  GLEW_ARB_gl_spirv : Bool
  NumShaderBinaryFormats : GLint
  ShaderBinaryFormats : List GLint
  uboVS : UboVS
  indeterminate : GLuint
  handles : BufferHandles
  vert : ShaderDriver
  frag : ShaderDriver
  prog : ProgramDriver
  VertexShaderBinary : List Nat
  FragmentShaderBinary : List Nat
  lastFPStime : ℚ
  lastFrameTime : ℚ

/-- The constructor of `OpenGLExample`: the handle fields are not initialised (they hold the
indeterminate value `i`), `zoom` and `rotation` have their default member initialisers. -/
def OpenGLExample.new (window : GLFWwindow) (i : GLuint) : OpenGLExample :=
  { Program := i, VAO := i, VBO := (i, i), UBO := i, zoom := -2, rotation := ⟨0, 0, 0⟩,
    window := window }

/-- The variables that live across iterations of the render loop of `main`; `app` is the
local object `example`. -/
structure LoopState where
  app : OpenGLExample
  uboVS : UboVS
  shouldClose : Bool
  lastFPStime : ℚ
  lastFrameTime : ℚ
  frameCounter : Int

/-- The body of the `do ... while` loop of `main`. -/
def loopBody (glm : Glm) (fp : Fp) (window : GLFWwindow) (s : LoopState) (f : Frame) :
    LoopState × List Event :=
  let thisFPStime := f.thisFPStime
  let frameCounter := s.frameCounter + 1
  let tick : ℚ × Int × List Event :=
    if fp.toDouble (thisFPStime - s.lastFPStime) ≥ 1 then
      (thisFPStime, 0,
        [Event.glfwSetWindowTitle window
          (appTitle ++ " (" ++ toString frameCounter ++
            " fps) - 2016 by Sascha Willems (www.saschawillems.de)")])
    else (s.lastFPStime, frameCounter, [])
  let currTime := f.currTime
  let d := draw glm fp s.app s.uboVS (fp.toDouble (currTime - s.lastFrameTime))
  let p := pollEvents window s.shouldClose f.events
  ({ app := d.1, uboVS := d.2.1, shouldClose := p.1, lastFPStime := tick.1,
     lastFrameTime := currTime, frameCounter := tick.2.1 },
    [Event.glfwGetTime] ++ tick.2.2 ++ [Event.glfwGetTime] ++ d.2.2 ++
      [Event.glfwPollEvents] ++ p.2)

/-- Result of the render loop. -/
structure LoopResult where
  state : LoopState
  frames : Nat
  finished : Bool
  trace : List Event

/-- The loop `do body while (!glfwWindowShouldClose(window))`, run on the frames supplied;
`finished` is false when they are used up before the condition ends the loop. -/
def mainLoop (glm : Glm) (fp : Fp) (window : GLFWwindow) :
    LoopState → List Frame → LoopResult
  | s, [] => { state := s, frames := 0, finished := false, trace := [] }
  | s, f :: fs =>
    let b := loopBody glm fp window s f
    if b.1.shouldClose then
      { state := b.1, frames := 1, finished := true,
        trace := b.2 ++ [Event.glfwWindowShouldClose window] }
    else
      let r := mainLoop glm fp window b.1 fs
      { r with frames := r.frames + 1,
               trace := b.2 ++ [Event.glfwWindowShouldClose window] ++ r.trace }

/-- The events of `main` up to and including `glfwCreateWindow`. -/
def preamble : List Event :=
  [Event.glfwSetErrorCallback,
   Event.glfwInit,
   Event.glfwWindowHint GLenum.GLFW_CONTEXT_VERSION_MAJOR (GLenum.num 4),
   Event.glfwWindowHint GLenum.GLFW_CONTEXT_VERSION_MINOR (GLenum.num 6),
   Event.glfwWindowHint GLenum.GLFW_OPENGL_PROFILE GLenum.GLFW_OPENGL_CORE_PROFILE,
   Event.glfwWindowHint GLenum.GLFW_OPENGL_FORWARD_COMPAT GLenum.GLFW_TRUE,
   Event.glfwCreateWindow 1280 720 appTitle]

/-- The events of `main` up to and including `glewInit`, when the window was created. -/
def bootstrap (window : GLFWwindow) : List Event :=
  preamble ++
  [Event.glfwMakeContextCurrent window,
   Event.glfwSetKeyCallback window,
   Event.glfwSetFramebufferSizeCallback window,
   Event.glewInit]

/-- The three `std::cout` lines with the driver strings. -/
def banner (env : Env) : List Event :=
  [Event.glGetString GLenum.GL_VENDOR, Event.cout ["GL_VENDOR:   ", env.vendor],
   Event.glGetString GLenum.GL_RENDERER, Event.cout ["GL_RENDERER: ", env.renderer],
   Event.glGetString GLenum.GL_VERSION, Event.cout ["GL_VERSION:  ", env.version]]

/-- The state with which `main` enters the render loop, and the events of the set-up that
follows the capability check. -/
def setup (glm : Glm) (env : Env) : LoopState × List Event :=
  let fmt := checkFormats env.NumShaderBinaryFormats env.ShaderBinaryFormats
  let ex := OpenGLExample.new env.window env.indeterminate
  let g := generateBuffers glm env.handles ex env.uboVS
  let l := loadAssets g.1 env.vert env.frag env.prog env.VertexShaderBinary
    env.FragmentShaderBinary
  ({ app := l.1, uboVS := g.2.1, shouldClose := false, lastFPStime := env.lastFPStime,
     lastFrameTime := env.lastFrameTime, frameCounter := 0 },
    fmt.2 ++ [Event.glfwSwapInterval 0] ++ g.2.2 ++ l.2 ++
      [Event.glDisable GLenum.GL_CULL_FACE, Event.glfwGetTime, Event.glfwGetTime])

/-- The function `main`, run against the answers `env` and the frames `frames`. -/
def main (glm : Glm) (fp : Fp) (env : Env) (frames : List Frame) : Run LoopState :=
  if env.glfwInitResult = 0 then
    { trace := [Event.glfwSetErrorCallback, Event.glfwInit, Event.exit EXIT_FAILURE],
      exit := some EXIT_FAILURE, frames := 0, final := none }
  else if env.window = 0 then
    { trace := preamble ++
        [Event.cerr ["Failed to open GLFW window"], Event.glfwTerminate,
         Event.exit EXIT_FAILURE],
      exit := some EXIT_FAILURE, frames := 0, final := none }
  else if env.glewInitResult ≠ GLEW_OK then
    { trace := bootstrap env.window ++
        [Event.glewGetErrorString env.glewInitResult,
         Event.cerr ["GLEW Error: ", env.glewErrorString], Event.exit (-1)],
      exit := some (-1), frames := 0, final := none }
  else if !env.GLEW_ARB_gl_spirv then
    { trace := bootstrap env.window ++ banner env ++
        [Event.cerr ["This examples requires support for SPIR-V (GL_ARB_gl_spirv)!"],
         Event.glfwDestroyWindow env.window, Event.glfwTerminate, Event.exit (-1)],
      exit := some (-1), frames := 0, final := none }
  else
    let s := setup glm env
    let r := mainLoop glm fp env.window s.1 frames
    if r.finished then
      { trace := bootstrap env.window ++ banner env ++ s.2 ++ r.trace ++
          [Event.glfwDestroyWindow env.window, Event.glfwTerminate, Event.exit EXIT_SUCCESS],
        exit := some EXIT_SUCCESS, frames := r.frames, final := some r.state }
    else
      { trace := bootstrap env.window ++ banner env ++ s.2 ++ r.trace,
        exit := none, frames := r.frames, final := some r.state }

end SPIRVShader

namespace ImplementationColorRead

/-- The constant `appTitle`. -/
def appTitle : String := "OpenGL example - GL_ARB_gl_spirv"

/-- The fields of `class OpenGLExample`. -/
structure OpenGLExample where
  window : GLFWwindow

/-- `OpenGLExample::draw`. -/
def draw (ex : OpenGLExample) (_deltaT : ℚ) : List Event :=
  [Event.glfwGetTime,
   Event.glClearColor 0 0 (2 / 10) 1,
   Event.glClear (GL_COLOR_BUFFER_BIT ||| GL_DEPTH_BUFFER_BIT),
   Event.glfwSwapBuffers ex.window]

/-- The static function `key_callback`: the new should-close flag of the window and the
events. -/
def key_callback (window : GLFWwindow) (shouldClose : Bool) (key _scancode action _mods : Int) :
    Bool × List Event :=
  if key = GLFW_KEY_ESCAPE ∧ action = GLFW_PRESS then
    (true, [Event.glfwSetWindowShouldClose window GL_TRUE])
  else (shouldClose, [])

/-- The static function `framebuffer_size_callback`. -/
def framebuffer_size_callback (_window : GLFWwindow) (width height : Int) : List Event :=
  [Event.glViewport 0 0 width height]

/-- Delivery of one window event: GLFW invokes the registered callback; a close request of
the window system sets the should-close flag. -/
def dispatch (window : GLFWwindow) (shouldClose : Bool) : WindowEvent → Bool × List Event
  | WindowEvent.key k s a m => key_callback window shouldClose k s a m
  | WindowEvent.framebufferSize w h => (shouldClose, framebuffer_size_callback window w h)
  | WindowEvent.close => (true, [])

/-- The effect of `glfwPollEvents`: the pending events are delivered in order. -/
def pollEvents (window : GLFWwindow) : Bool → List WindowEvent → Bool × List Event
  | shouldClose, [] => (shouldClose, [])
  | shouldClose, e :: es =>
    let d := dispatch window shouldClose e
    let r := pollEvents window d.1 es
    (r.1, d.2 ++ r.2)

/-- Everything the platform answers to `main` before the render loop. -/
structure Env where
  glfwInitResult : Int
  window : GLFWwindow
  glewInitResult : Nat
  glewErrorString : String
  vendor : String
  renderer : String
  version : String
  GLEW_ARB_gl_spirv : Bool
  lastFPStime : ℚ
  lastFrameTime : ℚ

/-- The variables that live across iterations of the render loop of `main`; `app` is the
local object `example`. -/
structure LoopState where
  app : OpenGLExample
  shouldClose : Bool
  lastFPStime : ℚ
  lastFrameTime : ℚ
  frameCounter : Int

/-- The body of the `do ... while` loop of `main`. -/
def loopBody (fp : Fp) (window : GLFWwindow) (s : LoopState) (f : Frame) :
    LoopState × List Event :=
  let thisFPStime := f.thisFPStime
  let frameCounter := s.frameCounter + 1
  let tick : ℚ × Int × List Event :=
    if fp.toDouble (thisFPStime - s.lastFPStime) ≥ 1 then
      (thisFPStime, 0,
        [Event.glfwSetWindowTitle window
          (appTitle ++ " (" ++ toString frameCounter ++
            " fps) - 2016 by Sascha Willems (www.saschawillems.de)")])
    else (s.lastFPStime, frameCounter, [])
  let currTime := f.currTime
  let d := draw s.app (fp.toDouble (currTime - s.lastFrameTime))
  let p := pollEvents window s.shouldClose f.events
  ({ app := s.app, shouldClose := p.1, lastFPStime := tick.1, lastFrameTime := currTime,
     frameCounter := tick.2.1 },
    [Event.glfwGetTime] ++ tick.2.2 ++ [Event.glfwGetTime] ++ d ++
      [Event.glfwPollEvents] ++ p.2)

/-- Result of the render loop. -/
structure LoopResult where
  state : LoopState
  frames : Nat
  finished : Bool
  trace : List Event

/-- The loop `do body while (!glfwWindowShouldClose(window))`, run on the frames supplied;
`finished` is false when they are used up before the condition ends the loop. -/
def mainLoop (fp : Fp) (window : GLFWwindow) : LoopState → List Frame → LoopResult
  | s, [] => { state := s, frames := 0, finished := false, trace := [] }
  | s, f :: fs =>
    let b := loopBody fp window s f
    if b.1.shouldClose then
      { state := b.1, frames := 1, finished := true,
        trace := b.2 ++ [Event.glfwWindowShouldClose window] }
    else
      let r := mainLoop fp window b.1 fs
      { r with frames := r.frames + 1,
               trace := b.2 ++ [Event.glfwWindowShouldClose window] ++ r.trace }

/-- The events of `main` up to and including `glfwCreateWindow`. -/
def preamble : List Event :=
  [Event.glfwSetErrorCallback,
   Event.glfwInit,
   Event.glfwWindowHint GLenum.GLFW_CONTEXT_VERSION_MAJOR (GLenum.num 4),
   Event.glfwWindowHint GLenum.GLFW_CONTEXT_VERSION_MINOR (GLenum.num 2),
   Event.glfwWindowHint GLenum.GLFW_OPENGL_PROFILE GLenum.GLFW_OPENGL_CORE_PROFILE,
   Event.glfwWindowHint GLenum.GLFW_OPENGL_FORWARD_COMPAT GLenum.GLFW_TRUE,
   Event.glfwCreateWindow 1280 720 appTitle]

/-- The events of `main` up to and including `glewInit`, when the window was created. -/
def bootstrap (window : GLFWwindow) : List Event :=
  preamble ++
  [Event.glfwMakeContextCurrent window,
   Event.glfwSetKeyCallback window,
   Event.glfwSetFramebufferSizeCallback window,
   Event.glewInit]

/-- The three `std::cout` lines with the driver strings and the two colour-read queries. -/
def banner (env : Env) : List Event :=
  [Event.glGetString GLenum.GL_VENDOR, Event.cout ["GL_VENDOR:   ", env.vendor],
   Event.glGetString GLenum.GL_RENDERER, Event.cout ["GL_RENDERER: ", env.renderer],
   Event.glGetString GLenum.GL_VERSION, Event.cout ["GL_VERSION:  ", env.version],
   Event.glGetIntegerv GLenum.GL_IMPLEMENTATION_COLOR_READ_TYPE,
   Event.glGetIntegerv GLenum.GL_IMPLEMENTATION_COLOR_READ_FORMAT]

/-- The state with which `main` enters the render loop, and the events of the set-up that
follows the capability check. -/
def setup (env : Env) : LoopState × List Event :=
  ({ app := { window := env.window }, shouldClose := false, lastFPStime := env.lastFPStime,
     lastFrameTime := env.lastFrameTime, frameCounter := 0 },
    [Event.glfwSwapInterval 0, Event.glDisable GLenum.GL_CULL_FACE, Event.glfwGetTime,
     Event.glfwGetTime])

/-- The function `main`, run against the answers `env` and the frames `frames`. -/
def main (fp : Fp) (env : Env) (frames : List Frame) : Run LoopState :=
  if env.glfwInitResult = 0 then
    { trace := [Event.glfwSetErrorCallback, Event.glfwInit, Event.exit EXIT_FAILURE],
      exit := some EXIT_FAILURE, frames := 0, final := none }
  else if env.window = 0 then
    { trace := preamble ++
        [Event.cerr ["Failed to open GLFW window"], Event.glfwTerminate,
         Event.exit EXIT_FAILURE],
      exit := some EXIT_FAILURE, frames := 0, final := none }
  else if env.glewInitResult ≠ GLEW_OK then
    { trace := bootstrap env.window ++
        [Event.glewGetErrorString env.glewInitResult,
         Event.cerr ["GLEW Error: ", env.glewErrorString], Event.exit (-1)],
      exit := some (-1), frames := 0, final := none }
  else if !env.GLEW_ARB_gl_spirv then
    { trace := bootstrap env.window ++ banner env ++
        [Event.cerr ["This examples requires support for SPIR-V (GL_ARB_gl_spirv)!"],
         Event.glfwDestroyWindow env.window, Event.glfwTerminate, Event.exit (-1)],
      exit := some (-1), frames := 0, final := none }
  else
    let s := setup env
    let r := mainLoop fp env.window s.1 frames
    if r.finished then
      { trace := bootstrap env.window ++ banner env ++ s.2 ++ r.trace ++
          [Event.glfwDestroyWindow env.window, Event.glfwTerminate, Event.exit EXIT_SUCCESS],
        exit := some EXIT_SUCCESS, frames := r.frames, final := some r.state }
    else
      { trace := bootstrap env.window ++ banner env ++ s.2 ++ r.trace,
        exit := none, frames := r.frames, final := some r.state }

end ImplementationColorRead

/-! ## Vocabulary for the properties -/

/-- What the properties need of a rounding: it is monotone, it keeps zero, and a `float`
rounds to itself. -/
def Fp.IsRounding (fp : Fp) : Prop :=
  (∀ x y, x ≤ y → fp.toFloat x ≤ fp.toFloat y) ∧
  (∀ x y, x ≤ y → fp.toDouble x ≤ fp.toDouble y) ∧
  fp.toFloat 0 = 0 ∧ fp.toDouble 0 = 0 ∧
  (∀ x, fp.toFloat (fp.toFloat x) = fp.toFloat x)

/-- Event `a` occurs in `l` before an occurrence of `b`. -/
def Precedes (a b : Event) (l : List Event) : Prop :=
  ∃ p m q, l = p ++ a :: (m ++ b :: q)

/-- Calls that create, populate or link a program object. -/
def Event.isProgramCall : Event → Bool
  | Event.glCreateProgram => true
  | Event.glAttachShader _ _ => true
  | Event.glLinkProgram _ => true
  | _ => false

/-- Calls that create a buffer, a vertex array, a shader or a program. -/
def Event.isCreateCall : Event → Bool
  | Event.glCreateBuffers _ => true
  | Event.glCreateVertexArrays _ => true
  | Event.glCreateShader _ => true
  | Event.glCreateProgram => true
  | _ => false

/-- The draw call `glDrawArrays`. -/
def Event.isDrawCall : Event → Bool
  | Event.glDrawArrays _ _ _ => true
  | _ => false

/-- Calls that the programs make only from inside `draw`. -/
def Event.isRenderCall : Event → Bool
  | Event.glClearColor _ _ _ _ => true
  | Event.glClear _ => true
  | Event.glPolygonMode _ _ => true
  | Event.glEnable _ => true
  | Event.glBindBufferBase _ _ _ => true
  | Event.glUseProgram _ => true
  | Event.glBindVertexArray _ => true
  | Event.glDrawArrays _ _ _ => true
  | Event.glfwSwapBuffers _ => true
  | _ => false

/-- The buffer swap that ends the rendering of a frame (one per call of `draw`). -/
def Event.isSwap : Event → Bool
  | Event.glfwSwapBuffers _ => true
  | _ => false

/-- The call `glUseProgram(p)`. -/
def Event.isUseProgram (p : GLuint) : Event → Bool
  | Event.glUseProgram q => q == p
  | _ => false

/-- A call of `exit`. -/
def Event.isExit : Event → Bool
  | Event.exit _ => true
  | _ => false

/-- The window events that ask for the window to be closed: a close request of the window
system, or a press of the Escape key. -/
def WindowEvent.requestsClose : WindowEvent → Bool
  | WindowEvent.key k _ a _ => decide (k = GLFW_KEY_ESCAPE ∧ a = GLFW_PRESS)
  | WindowEvent.framebufferSize _ _ => false
  | WindowEvent.close => true

/-- Neither a render call nor a call of `exit`. -/
def Event.isQuiet (e : Event) : Bool :=
  !e.isRenderCall && !e.isExit

namespace SPIRVShader

/-- The claim "neither stage object is deleted before the program has been linked", read on
the calls of a trace. -/
def DeletedOnlyAfterLink (program vertShader fragShader : GLuint) (l : List Event) : Prop :=
  ¬ Precedes (Event.glDeleteShader vertShader) (Event.glLinkProgram program) l ∧
  ¬ Precedes (Event.glDeleteShader fragShader) (Event.glLinkProgram program) l

/-- The contract of `glm::rotate`: the matrix is multiplied on the right by the rotation
`R angle axis`. -/
def PostMultiplies (glm : Glm) (R : ℚ → Vec3 → Mat4) : Prop :=
  ∀ m a v, glm.rotate m a v = m * R a v

/-- The answers with which `main` gets past context creation and GLEW initialisation. -/
def Env.ContextCreated (env : Env) : Prop :=
  env.glfwInitResult ≠ 0 ∧ env.window ≠ 0 ∧ env.glewInitResult = GLEW_OK

/-- A sample instance of the glm parameters: `rotate` multiplies on the right by
`sampleRotation`. -/
def sampleRotation (a : ℚ) (v : Vec3) : Mat4 :=
  Matrix.diagonal fun i => if i = 0 then a else if i = 1 then v.x else v.y

/-- A sample instance of the glm parameters. -/
def sampleGlm : Glm :=
  { radians := fun d => d / 180
    perspective := fun fovy aspect near far => Matrix.diagonal fun i =>
      if i = 0 then fovy else if i = 1 then aspect else if i = 2 then near else far
    translate := fun m v => m + Matrix.diagonal fun _ => v.z
    rotate := fun m a v => m * sampleRotation a v }

/-- A sample object state. -/
def sampleExample : OpenGLExample :=
  { Program := 7, VAO := 6, VBO := (3, 4), UBO := 5, zoom := -2, rotation := ⟨1, 2, 3⟩,
    window := 1 }

/-- Sample answers of the platform: the context is created, the extension flag is `ext`, the
vertex stage reports compile status `vstatus`, the fragment stage `GL_TRUE`. -/
def sampleEnv (ext : Bool) (vstatus : GLint) : Env :=
  { glfwInitResult := 1, window := 1, glewInitResult := 0, glewErrorString := "",
    vendor := "vendor", renderer := "renderer", version := "4.6",
    GLEW_ARB_gl_spirv := ext, NumShaderBinaryFormats := 1,
    ShaderBinaryFormats := [GL_SHADER_BINARY_FORMAT_SPIR_V],
    uboVS := ⟨0, 0, 0⟩, indeterminate := 0, handles := ⟨3, 4, 5, 6⟩,
    vert := ⟨1, vstatus, 0, ""⟩, frag := ⟨2, 1, 0, ""⟩, prog := ⟨7, 1, 0, ""⟩,
    VertexShaderBinary := [], FragmentShaderBinary := [],
    lastFPStime := 0, lastFrameTime := 0 }

end SPIRVShader

namespace ImplementationColorRead

/-- The answers with which `main` gets past context creation and GLEW initialisation. -/
def Env.ContextCreated (env : Env) : Prop :=
  env.glfwInitResult ≠ 0 ∧ env.window ≠ 0 ∧ env.glewInitResult = GLEW_OK

/-- Sample answers of the platform: the context is created, the extension flag is `ext`. -/
def sampleEnv (ext : Bool) : Env :=
  { glfwInitResult := 1, window := 1, glewInitResult := 0, glewErrorString := "",
    vendor := "vendor", renderer := "renderer", version := "4.2",
    GLEW_ARB_gl_spirv := ext, lastFPStime := 0, lastFrameTime := 0 }

end ImplementationColorRead

end Ogglepie

/-! ## Properties -/

namespace Ogglepie

/-- The bitwise AND with 0 is 0. -/
theorem land_zero_left (m : Int) : Int.land 0 m = 0 := by
  cases m with
  | ofNat n => simp [Int.land]
  | negSucc n => simp [Int.land, Nat.ldiff]

/-- The bitwise AND with 1 is the lowest bit. -/
theorem one_land (a : Int) : Int.land 1 a = a % 2 := by
  have h1 : (1 : Int) = Int.bit true 0 := by decide
  have h2 := Int.bodd_add_div2 a
  have h3 : Int.land 1 a = Int.bit (Int.bodd a) 0 := by
    conv_lhs => rw [h1, ← Int.bit_decomp a, Int.land_bit, land_zero_left]
    simp
  rw [h3]
  cases h : Int.bodd a
  · rw [h] at h2
    simp only [Int.bit, cond_false] at h2 ⊢
    omega
  · rw [h] at h2
    simp only [Int.bit, cond_true] at h2 ⊢
    omega

/-- The value of `result` after the two `&=` of `InitProgram` is 0 exactly when one of the
two statuses is even. -/
theorem land_statuses_eq_zero (a b : Int) :
    Int.land (Int.land GL_TRUE a) b = 0 ↔ (a % 2 = 0 ∨ b % 2 = 0) := by
  unfold GL_TRUE
  rw [one_land]
  rcases Int.emod_two_eq_zero_or_one a with h | h
  · rw [h, land_zero_left]; simp [h]
  · rw [h, one_land]; simp [h]

/-! ### Rounding -/

/-- Exact arithmetic is a rounding in the sense of `Fp.IsRounding`. -/
theorem exactFp_isRounding : exactFp.IsRounding :=
  ⟨fun _ _ h => h, fun _ _ h => h, rfl, rfl, fun _ => rfl⟩

namespace SPIRVShader

/-! ### Shader stage initialisation -/

/-- The events of `PrintShaderInfoLog` contain no `std::cerr` output. -/
theorem cerr_not_mem_PrintShaderInfoLog (d : ShaderDriver) (shader : GLuint) (Label : String)
    (parts : List String) : Event.cerr parts ∉ PrintShaderInfoLog d shader Label := by
  simp only [PrintShaderInfoLog]
  split_ifs <;> simp

/-- What `PrintShaderInfoLog` writes to `std::cout`. -/
theorem cout_mem_PrintShaderInfoLog (d : ShaderDriver) (shader : GLuint) (Label : String)
    (parts : List String) :
    Event.cout parts ∈ PrintShaderInfoLog d shader Label ↔
      0 < d.infoLogLength ∧
        ((d.infoLogLength = 1 ∧ d.infoLog = "") ∧
            parts = ["!! Single \x27\x5c0\x27 character ShaderInfoLog (", Label, ")"] ∨
          ¬ (d.infoLogLength = 1 ∧ d.infoLog = "") ∧
            parts = ["ShaderInfolog (", Label, "): ", d.infoLog]) := by
  simp only [PrintShaderInfoLog]
  split_ifs with h1 h2 <;> simp_all

/-- C10: `InitShader` writes "Failed to compile <name>" to `std::cerr` exactly when the
compile status differs from `GL_TRUE`; whatever the status, it prints the line with the
info-log text exactly when the reported log length is positive and the log is not a single
NUL byte; it prints nothing on `std::cout` when the log is empty; and it returns the compile
status unchanged. -/
theorem InitShader_reports (d : ShaderDriver) (ShaderType : GLenum) (ShaderBinary : List Nat)
    (ShaderBinaryLength : Nat) (ShaderName : String) :
    (Event.cerr ["Failed to compile ", ShaderName] ∈
        (InitShader d ShaderType ShaderBinary ShaderBinaryLength ShaderName).trace ↔
      d.compileStatus ≠ GL_TRUE) ∧
    (Event.cout ["ShaderInfolog (", ShaderName, "): ", d.infoLog] ∈
        (InitShader d ShaderType ShaderBinary ShaderBinaryLength ShaderName).trace ↔
      0 < d.infoLogLength ∧ ¬ (d.infoLogLength = 1 ∧ d.infoLog = "")) ∧
    ((∃ parts, Event.cout parts ∈
        (InitShader d ShaderType ShaderBinary ShaderBinaryLength ShaderName).trace) ↔
      0 < d.infoLogLength) ∧
    (InitShader d ShaderType ShaderBinary ShaderBinaryLength ShaderName).ret =
      d.compileStatus := by
  refine ⟨?_, ?_, ?_, rfl⟩
  · simp only [InitShader, List.mem_append, cerr_not_mem_PrintShaderInfoLog, or_false]
    split_ifs with h <;> simp [h]
  · simp only [InitShader, List.mem_append, cout_mem_PrintShaderInfoLog]
    split_ifs with h <;> simp
  · simp only [InitShader, List.mem_append, cout_mem_PrintShaderInfoLog]
    constructor
    · rintro ⟨parts, h⟩
      split_ifs at h <;> simp at h <;> exact h.1
    · intro h
      by_cases hs : d.infoLogLength = 1 ∧ d.infoLog = ""
      · exact ⟨_, Or.inr ⟨h, Or.inl ⟨hs, rfl⟩⟩⟩
      · exact ⟨_, Or.inr ⟨h, Or.inr ⟨hs, rfl⟩⟩⟩

/-! ### Pipeline build -/

/-- The events of `InitShader` contain no call on a program object. -/
theorem InitShader_no_program_call (d : ShaderDriver) (ty : GLenum) (b : List Nat) (n : Nat)
    (name : String) :
    (InitShader d ty b n name).trace.all (fun e => !e.isProgramCall) = true := by
  simp only [InitShader, PrintShaderInfoLog]
  split_ifs <;> rfl

/-- `InitProgram` takes its failure path when one of the two compile statuses is even, in
particular when one of them is `GL_FALSE`: it returns 0, both stages have been initialised
by then, and no program object is created, attached to or linked. -/
theorem InitProgram_failure_path (vd fd : ShaderDriver) (pd : ProgramDriver)
    (vb : List Nat) (vl : Nat) (fb : List Nat) (fl : Nat)
    (h : vd.compileStatus % 2 = 0 ∨ fd.compileStatus % 2 = 0) :
    (InitProgram vd fd pd vb vl fb fl).ret = 0 ∧
    (InitProgram vd fd pd vb vl fb fl).trace =
      (InitShader vd GLenum.GL_VERTEX_SHADER vb vl "VertexShader").trace ++
      (InitShader fd GLenum.GL_FRAGMENT_SHADER fb fl "FragmentShader").trace ++
      [Event.cerr ["Could not load all binary shaders required for this program"]] ∧
    (InitProgram vd fd pd vb vl fb fl).trace.all (fun e => !e.isProgramCall) = true := by
  have h0 := (land_statuses_eq_zero vd.compileStatus fd.compileStatus).2 h
  have ht : (InitProgram vd fd pd vb vl fb fl).trace =
      (InitShader vd GLenum.GL_VERTEX_SHADER vb vl "VertexShader").trace ++
      (InitShader fd GLenum.GL_FRAGMENT_SHADER fb fl "FragmentShader").trace ++
      [Event.cerr ["Could not load all binary shaders required for this program"]] := by
    simp only [InitProgram, InitShader] at h0 ⊢
    rw [if_pos h0]
  refine ⟨?_, ht, ?_⟩
  · simp only [InitProgram, InitShader] at h0 ⊢
    rw [if_pos h0]
    rfl
  · rw [ht, List.all_append, List.all_append, InitShader_no_program_call,
      InitShader_no_program_call]
    rfl

/-- `InitProgram` goes on to create and link the program exactly when both compile statuses
are odd. -/
theorem InitProgram_success_path (vd fd : ShaderDriver) (pd : ProgramDriver)
    (vb : List Nat) (vl : Nat) (fb : List Nat) (fl : Nat)
    (h : ¬ (vd.compileStatus % 2 = 0 ∨ fd.compileStatus % 2 = 0)) :
    (InitProgram vd fd pd vb vl fb fl).ret = pd.handle ∧
    (InitProgram vd fd pd vb vl fb fl).trace =
      (InitShader vd GLenum.GL_VERTEX_SHADER vb vl "VertexShader").trace ++
      (InitShader fd GLenum.GL_FRAGMENT_SHADER fb fl "FragmentShader").trace ++
      [Event.glCreateProgram,
       Event.glAttachShader pd.handle vd.handle,
       Event.glAttachShader pd.handle fd.handle,
       Event.glDeleteShader vd.handle,
       Event.glDeleteShader fd.handle,
       Event.glLinkProgram pd.handle] ++
      PrintProgramInfoLog pd pd.handle ++
      [Event.glDetachShader pd.handle vd.handle,
       Event.glDetachShader pd.handle fd.handle] := by
  have h0 := (not_congr (land_statuses_eq_zero vd.compileStatus fd.compileStatus)).2 h
  simp only [InitProgram, InitShader] at h0 ⊢
  rw [if_neg h0]
  exact ⟨rfl, rfl⟩

/-- C1: for every pair of compile statuses that the Boolean query `GL_COMPILE_STATUS`
reports (`GL_TRUE` or `GL_FALSE`), if at least one stage fails compilation (its status is
not `GL_TRUE`), `InitProgram` returns `GL_FALSE` and makes no call that creates, attaches to
or links a program object; both stages have been initialised before the result is decided,
and the failure is reported on `std::cerr`. -/
theorem InitProgram_failed_stage (vd fd : ShaderDriver) (pd : ProgramDriver)
    (vb : List Nat) (vl : Nat) (fb : List Nat) (fl : Nat)
    (hv : vd.compileStatus = GL_TRUE ∨ vd.compileStatus = GL_FALSE)
    (hf : fd.compileStatus = GL_TRUE ∨ fd.compileStatus = GL_FALSE)
    (hfail : vd.compileStatus ≠ GL_TRUE ∨ fd.compileStatus ≠ GL_TRUE) :
    (InitProgram vd fd pd vb vl fb fl).ret = GL_FALSE.toNat ∧
    (InitProgram vd fd pd vb vl fb fl).trace.all (fun e => !e.isProgramCall) = true ∧
    Event.glCreateProgram ∉ (InitProgram vd fd pd vb vl fb fl).trace ∧
    (∀ program shader,
      Event.glAttachShader program shader ∉ (InitProgram vd fd pd vb vl fb fl).trace) ∧
    (∀ program, Event.glLinkProgram program ∉ (InitProgram vd fd pd vb vl fb fl).trace) ∧
    (InitProgram vd fd pd vb vl fb fl).trace =
      (InitShader vd GLenum.GL_VERTEX_SHADER vb vl "VertexShader").trace ++
      (InitShader fd GLenum.GL_FRAGMENT_SHADER fb fl "FragmentShader").trace ++
      [Event.cerr ["Could not load all binary shaders required for this program"]] := by
  have heven : vd.compileStatus % 2 = 0 ∨ fd.compileStatus % 2 = 0 := by
    rcases hfail with h | h
    · rcases hv with h1 | h1
      · exact absurd h1 h
      · left; rw [h1]; rfl
    · rcases hf with h1 | h1
      · exact absurd h1 h
      · right; rw [h1]; rfl
  obtain ⟨h1, h2, h3⟩ := InitProgram_failure_path vd fd pd vb vl fb fl heven
  rw [List.all_eq_true] at h3
  refine ⟨h1, List.all_eq_true.2 h3, ?_, ?_, ?_, h2⟩
  · intro hmem
    have := h3 _ hmem
    simp [Event.isProgramCall] at this
  · intro program shader hmem
    have := h3 _ hmem
    simp [Event.isProgramCall] at this
  · intro program hmem
    have := h3 _ hmem
    simp [Event.isProgramCall] at this

/-- Witness of `InitProgram_failed_stage`: the vertex stage reports `GL_FALSE`, the fragment
stage `GL_TRUE`. -/
theorem InitProgram_failed_stage_witness :
    (InitProgram ⟨1, GL_FALSE, 0, ""⟩ ⟨2, GL_TRUE, 0, ""⟩ ⟨7, 1, 0, ""⟩ [] 0 [] 0).ret =
      GL_FALSE.toNat ∧
    Event.glCreateProgram ∉
      (InitProgram ⟨1, GL_FALSE, 0, ""⟩ ⟨2, GL_TRUE, 0, ""⟩ ⟨7, 1, 0, ""⟩ [] 0 [] 0).trace :=
  ⟨(InitProgram_failed_stage ⟨1, GL_FALSE, 0, ""⟩ ⟨2, GL_TRUE, 0, ""⟩ ⟨7, 1, 0, ""⟩ [] 0 [] 0
      (Or.inr rfl) (Or.inl rfl) (Or.inl (by decide))).1,
    (InitProgram_failed_stage ⟨1, GL_FALSE, 0, ""⟩ ⟨2, GL_TRUE, 0, ""⟩ ⟨7, 1, 0, ""⟩ [] 0 [] 0
      (Or.inr rfl) (Or.inl rfl) (Or.inl (by decide))).2.2.1⟩

/-- C7 as stated fails: with both stages compiled (status `GL_TRUE`), `glDeleteShader` is
called on the vertex stage before `glLinkProgram` is called on the program. -/
theorem InitProgram_deletes_before_link :
    ¬ DeletedOnlyAfterLink 7 1 2
      (InitProgram ⟨1, 1, 0, ""⟩ ⟨2, 1, 0, ""⟩ ⟨7, 1, 0, ""⟩ [] 0 [] 0).trace := by
  rintro ⟨h, -⟩
  apply h
  refine ⟨(InitShader ⟨1, 1, 0, ""⟩ GLenum.GL_VERTEX_SHADER [] 0 "VertexShader").trace ++
      (InitShader ⟨2, 1, 0, ""⟩ GLenum.GL_FRAGMENT_SHADER [] 0 "FragmentShader").trace ++
      [Event.glCreateProgram, Event.glAttachShader 7 1, Event.glAttachShader 7 2],
    [Event.glDeleteShader 2],
    PrintProgramInfoLog ⟨7, 1, 0, ""⟩ 7 ++
      [Event.glDetachShader 7 1, Event.glDetachShader 7 2], ?_⟩
  rw [(InitProgram_success_path ⟨1, 1, 0, ""⟩ ⟨2, 1, 0, ""⟩ ⟨7, 1, 0, ""⟩ [] 0 [] 0
    (by decide)).2]
  simp

/-- C7, amended: when both stages compile, `InitProgram` creates a program object, attaches
the vertex and the fragment stage, calls `glDeleteShader` on both stage objects while they
are still attached, links the program, queries the link log, and then detaches the two stage
objects; it returns the handle obtained from program creation. -/
theorem InitProgram_success_order (vd fd : ShaderDriver) (pd : ProgramDriver)
    (vb : List Nat) (vl : Nat) (fb : List Nat) (fl : Nat)
    (hv : vd.compileStatus = GL_TRUE) (hf : fd.compileStatus = GL_TRUE) :
    (InitProgram vd fd pd vb vl fb fl).ret = pd.handle ∧
    (InitProgram vd fd pd vb vl fb fl).trace =
      (InitShader vd GLenum.GL_VERTEX_SHADER vb vl "VertexShader").trace ++
      (InitShader fd GLenum.GL_FRAGMENT_SHADER fb fl "FragmentShader").trace ++
      [Event.glCreateProgram,
       Event.glAttachShader pd.handle vd.handle,
       Event.glAttachShader pd.handle fd.handle,
       Event.glDeleteShader vd.handle,
       Event.glDeleteShader fd.handle,
       Event.glLinkProgram pd.handle] ++
      PrintProgramInfoLog pd pd.handle ++
      [Event.glDetachShader pd.handle vd.handle,
       Event.glDetachShader pd.handle fd.handle] ∧
    (PrintProgramInfoLog pd pd.handle).take 2 =
      [Event.glGetProgramiv pd.handle GLenum.GL_LINK_STATUS,
       Event.glGetProgramiv pd.handle GLenum.GL_INFO_LOG_LENGTH] ∧
    Precedes (Event.glDeleteShader vd.handle) (Event.glLinkProgram pd.handle)
      (InitProgram vd fd pd vb vl fb fl).trace ∧
    Precedes (Event.glDeleteShader fd.handle) (Event.glLinkProgram pd.handle)
      (InitProgram vd fd pd vb vl fb fl).trace ∧
    Precedes (Event.glLinkProgram pd.handle) (Event.glDetachShader pd.handle vd.handle)
      (InitProgram vd fd pd vb vl fb fl).trace ∧
    Precedes (Event.glLinkProgram pd.handle) (Event.glDetachShader pd.handle fd.handle)
      (InitProgram vd fd pd vb vl fb fl).trace := by
  have h := InitProgram_success_path vd fd pd vb vl fb fl
    (by rw [hv, hf]; decide)
  refine ⟨h.1, h.2, rfl, ?_, ?_, ?_, ?_⟩
  · exact ⟨(InitShader vd GLenum.GL_VERTEX_SHADER vb vl "VertexShader").trace ++
        (InitShader fd GLenum.GL_FRAGMENT_SHADER fb fl "FragmentShader").trace ++
        [Event.glCreateProgram, Event.glAttachShader pd.handle vd.handle,
          Event.glAttachShader pd.handle fd.handle],
      [Event.glDeleteShader fd.handle],
      PrintProgramInfoLog pd pd.handle ++
        [Event.glDetachShader pd.handle vd.handle, Event.glDetachShader pd.handle fd.handle],
      by rw [h.2]; simp⟩
  · exact ⟨(InitShader vd GLenum.GL_VERTEX_SHADER vb vl "VertexShader").trace ++
        (InitShader fd GLenum.GL_FRAGMENT_SHADER fb fl "FragmentShader").trace ++
        [Event.glCreateProgram, Event.glAttachShader pd.handle vd.handle,
          Event.glAttachShader pd.handle fd.handle, Event.glDeleteShader vd.handle],
      [],
      PrintProgramInfoLog pd pd.handle ++
        [Event.glDetachShader pd.handle vd.handle, Event.glDetachShader pd.handle fd.handle],
      by rw [h.2]; simp⟩
  · exact ⟨(InitShader vd GLenum.GL_VERTEX_SHADER vb vl "VertexShader").trace ++
        (InitShader fd GLenum.GL_FRAGMENT_SHADER fb fl "FragmentShader").trace ++
        [Event.glCreateProgram, Event.glAttachShader pd.handle vd.handle,
          Event.glAttachShader pd.handle fd.handle, Event.glDeleteShader vd.handle,
          Event.glDeleteShader fd.handle],
      PrintProgramInfoLog pd pd.handle,
      [Event.glDetachShader pd.handle fd.handle],
      by rw [h.2]; simp⟩
  · exact ⟨(InitShader vd GLenum.GL_VERTEX_SHADER vb vl "VertexShader").trace ++
        (InitShader fd GLenum.GL_FRAGMENT_SHADER fb fl "FragmentShader").trace ++
        [Event.glCreateProgram, Event.glAttachShader pd.handle vd.handle,
          Event.glAttachShader pd.handle fd.handle, Event.glDeleteShader vd.handle,
          Event.glDeleteShader fd.handle],
      PrintProgramInfoLog pd pd.handle ++ [Event.glDetachShader pd.handle vd.handle],
      [],
      by rw [h.2]; simp⟩

/-- Witness of `InitProgram_success_order`: both stages report `GL_TRUE`. -/
theorem InitProgram_success_order_witness :
    (InitProgram ⟨1, 1, 0, ""⟩ ⟨2, 1, 0, ""⟩ ⟨7, 1, 0, ""⟩ [] 0 [] 0).ret = 7 ∧
    Precedes (Event.glDeleteShader 1) (Event.glLinkProgram 7)
      (InitProgram ⟨1, 1, 0, ""⟩ ⟨2, 1, 0, ""⟩ ⟨7, 1, 0, ""⟩ [] 0 [] 0).trace ∧
    Precedes (Event.glLinkProgram 7) (Event.glDetachShader 7 1)
      (InitProgram ⟨1, 1, 0, ""⟩ ⟨2, 1, 0, ""⟩ ⟨7, 1, 0, ""⟩ [] 0 [] 0).trace :=
  ⟨(InitProgram_success_order ⟨1, 1, 0, ""⟩ ⟨2, 1, 0, ""⟩ ⟨7, 1, 0, ""⟩ [] 0 [] 0
      rfl rfl).1,
    (InitProgram_success_order ⟨1, 1, 0, ""⟩ ⟨2, 1, 0, ""⟩ ⟨7, 1, 0, ""⟩ [] 0 [] 0
      rfl rfl).2.2.2.1,
    (InitProgram_success_order ⟨1, 1, 0, ""⟩ ⟨2, 1, 0, ""⟩ ⟨7, 1, 0, ""⟩ [] 0 [] 0
      rfl rfl).2.2.2.2.2.1⟩

/-! ### The transform block and the frame -/

/-- C2: after `updateUBO` the transform block holds the fixed perspective projection
(60 degrees, aspect 1280/720, near 0.1, far 256), the identity translated by `(0, 0, zoom)`
as view, and the identity rotated about X, then Y, then Z as model, which is the product
`Rx * Ry * Rz` for a `glm::rotate` that multiplies on the right; the block does not depend
on its previous content, and it is uploaded whole to the uniform buffer at offset 0. -/
theorem updateUBO_block (glm : Glm) (R : ℚ → Vec3 → Mat4) (hR : PostMultiplies glm R)
    (ex : OpenGLExample) (old : UboVS) :
    (updateUBO glm ex old).1.projection =
      glm.perspective (glm.radians 60) (1280 / 720) (1 / 10) 256 ∧
    (updateUBO glm ex old).1.view = glm.translate 1 ⟨0, 0, ex.zoom⟩ ∧
    (updateUBO glm ex old).1.model =
      glm.rotate
        (glm.rotate (glm.rotate 1 (glm.radians ex.rotation.x) ⟨1, 0, 0⟩)
          (glm.radians ex.rotation.y) ⟨0, 1, 0⟩)
        (glm.radians ex.rotation.z) ⟨0, 0, 1⟩ ∧
    (updateUBO glm ex old).1.model =
      R (glm.radians ex.rotation.x) ⟨1, 0, 0⟩ * R (glm.radians ex.rotation.y) ⟨0, 1, 0⟩ *
        R (glm.radians ex.rotation.z) ⟨0, 0, 1⟩ ∧
    (∀ other : UboVS, updateUBO glm ex other = updateUBO glm ex old) ∧
    (∀ ex2 : OpenGLExample, ex2.zoom = ex.zoom → ex2.rotation = ex.rotation →
      (updateUBO glm ex2 old).1 = (updateUBO glm ex old).1) ∧
    (updateUBO glm ex old).2 =
      [Event.glNamedBufferSubData ex.UBO 0 (3 * 64)
        (BufferData.block (updateUBO glm ex old).1)] ∧
    (updateUBO glm ex old).1.matrices =
      [(updateUBO glm ex old).1.projection, (updateUBO glm ex old).1.model,
        (updateUBO glm ex old).1.view] := by
  refine ⟨rfl, rfl, rfl, ?_, fun _ => rfl, ?_, rfl, rfl⟩
  · simp only [updateUBO, hR _ _ _, one_mul]
  · intro ex2 hz hr
    simp only [updateUBO, hz, hr]

/-- Witness of `updateUBO_block`: the sample glm, whose `rotate` multiplies on the right. -/
theorem updateUBO_block_witness :
    PostMultiplies sampleGlm sampleRotation ∧
    (updateUBO sampleGlm sampleExample ⟨0, 0, 0⟩).1.model =
      sampleRotation (sampleGlm.radians 1) ⟨1, 0, 0⟩ *
        sampleRotation (sampleGlm.radians 2) ⟨0, 1, 0⟩ *
        sampleRotation (sampleGlm.radians 3) ⟨0, 0, 1⟩ ∧
    (updateUBO sampleGlm sampleExample ⟨0, 0, 0⟩).2 =
      [Event.glNamedBufferSubData 5 0 (3 * 64)
        (BufferData.block (updateUBO sampleGlm sampleExample ⟨0, 0, 0⟩).1)] :=
  ⟨fun _ _ _ => rfl,
    (updateUBO_block sampleGlm sampleRotation (fun _ _ _ => rfl) sampleExample
      ⟨0, 0, 0⟩).2.2.2.1,
    (updateUBO_block sampleGlm sampleRotation (fun _ _ _ => rfl) sampleExample
      ⟨0, 0, 0⟩).2.2.2.2.2.2.1⟩

/-- C4: one call of `draw` issues, in this order, the clock read, the fixed clear colour
and the clear of colour and depth buffers, solid fill and the depth test, the binding of the
uniform buffer to point 0, of the program and of the vertex array, one `glDrawArrays` of 3
vertices from 0 in mode `GL_TRIANGLES`, the buffer swap, and only then the upload of the
transform block computed from the advanced rotation; there is exactly one draw call. -/
theorem draw_calls (glm : Glm) (fp : Fp) (ex : OpenGLExample) (uboVS : UboVS) (deltaT : ℚ) :
    (draw glm fp ex uboVS deltaT).2.2 =
      [Event.glfwGetTime,
       Event.glClearColor 0 0 (2 / 10) 1,
       Event.glClear (GL_COLOR_BUFFER_BIT ||| GL_DEPTH_BUFFER_BIT),
       Event.glPolygonMode GLenum.GL_FRONT_AND_BACK GLenum.GL_FILL,
       Event.glEnable GLenum.GL_DEPTH_TEST,
       Event.glBindBufferBase GLenum.GL_UNIFORM_BUFFER 0 ex.UBO,
       Event.glUseProgram ex.Program,
       Event.glBindVertexArray ex.VAO,
       Event.glDrawArrays GLenum.GL_TRIANGLES 0 3,
       Event.glfwSwapBuffers ex.window,
       Event.glNamedBufferSubData ex.UBO 0 sizeofUboVS
         (BufferData.block (draw glm fp ex uboVS deltaT).2.1)] ∧
    (draw glm fp ex uboVS deltaT).2.1 =
      (updateUBO glm
        { ex with rotation := ⟨ex.rotation.x,
            fp.toFloat (ex.rotation.y + fp.toFloat (fp.toDouble (deltaT * 50))),
            ex.rotation.z⟩ }
        uboVS).1 ∧
    (draw glm fp ex uboVS deltaT).1 =
      { ex with rotation := ⟨ex.rotation.x,
          fp.toFloat (ex.rotation.y + fp.toFloat (fp.toDouble (deltaT * 50))),
          ex.rotation.z⟩ } ∧
    (draw glm fp ex uboVS deltaT).2.2.countP Event.isDrawCall = 1 :=
  ⟨rfl, rfl, rfl, rfl⟩

/-! ### The render loop -/

/-- An event that is no render call is no draw call, no swap and no `glUseProgram`. -/
theorem not_render (p : GLuint) (e : Event) (h : e.isRenderCall = false) :
    e.isDrawCall = false ∧ e.isSwap = false ∧ e.isUseProgram p = false := by
  cases e <;> first | exact ⟨rfl, rfl, rfl⟩ | cases h

/-- A list without render calls has no draw call, no swap and no `glUseProgram`. -/
theorem countP_of_no_render (l : List Event) (h : ∀ e ∈ l, e.isRenderCall = false) (p : GLuint) :
    l.countP Event.isDrawCall = 0 ∧ l.countP Event.isSwap = 0 ∧
      l.countP (Event.isUseProgram p) = 0 := by
  refine ⟨?_, ?_, ?_⟩ <;> rw [List.countP_eq_zero] <;> intro e he
  · simp [(not_render p e (h e he)).1]
  · simp [(not_render p e (h e he)).2.1]
  · simp [(not_render p e (h e he)).2.2]

/-- The callbacks run by `glfwPollEvents` make no render call and do not call `exit`. -/
theorem pollEvents_quiet (w : GLFWwindow) (evs : List WindowEvent) (b : Bool) :
    ∀ e ∈ (pollEvents w b evs).2, e.isRenderCall = false ∧ e.isExit = false := by
  induction evs generalizing b with
  | nil => simp [pollEvents]
  | cons ev evs ih =>
    intro e he
    simp only [pollEvents, List.mem_append] at he
    rcases he with he | he
    · cases ev with
      | key k sc a m =>
        simp only [dispatch, key_callback] at he
        split_ifs at he <;> simp at he
        subst he; exact ⟨rfl, rfl⟩
      | framebufferSize x y =>
        simp only [dispatch, framebuffer_size_callback, List.mem_singleton] at he
        subst he; exact ⟨rfl, rfl⟩
      | close => simp [dispatch] at he
    · exact ih _ e he

/-- The should-close flag after `glfwPollEvents`: it is set when it was set before, or when
one of the delivered events is a close request or a press of Escape. -/
theorem pollEvents_flag (w : GLFWwindow) (evs : List WindowEvent) (b : Bool) :
    (pollEvents w b evs).1 = (b || evs.any WindowEvent.requestsClose) := by
  induction evs generalizing b with
  | nil => simp [pollEvents]
  | cons ev evs ih =>
    simp only [pollEvents, ih, List.any_cons]
    cases ev with
    | key k sc a m =>
      simp only [dispatch, key_callback, WindowEvent.requestsClose]
      split_ifs with h <;> simp [h]
    | framebufferSize x y => simp [dispatch, WindowEvent.requestsClose]
    | close => simp [dispatch, WindowEvent.requestsClose]

/-- One iteration of the loop body: exactly one draw call, one swap, one `glUseProgram` of
the stored program. -/
theorem loopBody_counts (glm : Glm) (fp : Fp) (w : GLFWwindow) (s : LoopState) (f : Frame) :
    (loopBody glm fp w s f).2.countP Event.isDrawCall = 1 ∧
    (loopBody glm fp w s f).2.countP Event.isSwap = 1 ∧
    (loopBody glm fp w s f).2.countP (Event.isUseProgram s.app.Program) = 1 := by
  have hp := countP_of_no_render _
    (fun e he => (pollEvents_quiet w f.events s.shouldClose e he).1) s.app.Program
  simp only [loopBody, draw, updateUBO, List.countP_append, hp.1, hp.2.1, hp.2.2]
  refine ⟨?_, ?_, ?_⟩ <;> split_ifs <;>
    simp [List.countP_cons, Event.isDrawCall, Event.isSwap, Event.isUseProgram]

/-- The loop body leaves the handles and the zoom of the object alone. -/
theorem loopBody_app (glm : Glm) (fp : Fp) (w : GLFWwindow) (s : LoopState) (f : Frame) :
    (loopBody glm fp w s f).1.app.Program = s.app.Program ∧
    (loopBody glm fp w s f).1.app.zoom = s.app.zoom ∧
    (loopBody glm fp w s f).1.app.rotation =
      ⟨s.app.rotation.x,
        fp.toFloat (s.app.rotation.y +
          fp.toFloat (fp.toDouble (fp.toDouble (f.currTime - s.lastFrameTime) * 50))),
        s.app.rotation.z⟩ ∧
    (loopBody glm fp w s f).1.lastFrameTime = f.currTime ∧
    (loopBody glm fp w s f).1.shouldClose = (pollEvents w s.shouldClose f.events).1 :=
  ⟨rfl, rfl, rfl, rfl, rfl⟩

/-- In the events of the render loop there is one draw call, one swap and one `glUseProgram`
of the stored program per executed frame. -/
theorem mainLoop_counts (glm : Glm) (fp : Fp) (w : GLFWwindow) (fs : List Frame) (s : LoopState) :
    (mainLoop glm fp w s fs).trace.countP Event.isDrawCall = (mainLoop glm fp w s fs).frames ∧
    (mainLoop glm fp w s fs).trace.countP Event.isSwap = (mainLoop glm fp w s fs).frames ∧
    (mainLoop glm fp w s fs).trace.countP (Event.isUseProgram s.app.Program) =
      (mainLoop glm fp w s fs).frames := by
  induction fs generalizing s with
  | nil => simp [mainLoop]
  | cons f fs ih =>
    have hb := loopBody_counts glm fp w s f
    have ih2 := ih (loopBody glm fp w s f).1
    rw [(loopBody_app glm fp w s f).1] at ih2
    simp only [mainLoop]
    split_ifs with h
    · simp [List.countP_append, List.countP_cons, hb.1, hb.2.1, hb.2.2, Event.isDrawCall,
        Event.isSwap, Event.isUseProgram]
    · simp only [List.countP_append, hb.1, hb.2.1, hb.2.2, ih2.1, ih2.2.1, ih2.2.2]
      simp [List.countP_cons, Event.isDrawCall, Event.isSwap, Event.isUseProgram]
      omega

/-- One unfolding of the `do ... while` loop. -/
theorem mainLoop_cons (glm : Glm) (fp : Fp) (w : GLFWwindow) (s : LoopState) (f : Frame)
    (fs : List Frame) :
    mainLoop glm fp w s (f :: fs) =
      if (loopBody glm fp w s f).1.shouldClose then
        { state := (loopBody glm fp w s f).1, frames := 1, finished := true,
          trace := (loopBody glm fp w s f).2 ++ [Event.glfwWindowShouldClose w] }
      else
        { mainLoop glm fp w (loopBody glm fp w s f).1 fs with
          frames := (mainLoop glm fp w (loopBody glm fp w s f).1 fs).frames + 1,
          trace := (loopBody glm fp w s f).2 ++ [Event.glfwWindowShouldClose w] ++
            (mainLoop glm fp w (loopBody glm fp w s f).1 fs).trace } := by
  simp only [mainLoop]

/-- The loop runs through frames that do not set the should-close flag and ends with the
first frame that sets it, whatever frames might follow. -/
theorem mainLoop_close (glm : Glm) (fp : Fp) (w : GLFWwindow) (pre : List Frame) (f : Frame)
    (rest : List Frame) (s : LoopState) (hs : s.shouldClose = false)
    (hpre : ∀ g ∈ pre, (pollEvents w false g.events).1 = false)
    (hf : (pollEvents w false f.events).1 = true) :
    (mainLoop glm fp w s (pre ++ f :: rest)).finished = true ∧
    (mainLoop glm fp w s (pre ++ f :: rest)).frames = pre.length + 1 ∧
    mainLoop glm fp w s (pre ++ f :: rest) = mainLoop glm fp w s (pre ++ [f]) ∧
    ∃ body, (mainLoop glm fp w s (pre ++ f :: rest)).trace =
      body ++ [Event.glfwWindowShouldClose w] := by
  induction pre generalizing s with
  | nil =>
    have hb : (loopBody glm fp w s f).1.shouldClose = true := by
      rw [(loopBody_app glm fp w s f).2.2.2.2, hs, hf]
    simp only [List.nil_append, mainLoop_cons, hb, if_true, true_and]
    exact ⟨rfl, _, rfl⟩
  | cons g pre ih =>
    have hg : (loopBody glm fp w s g).1.shouldClose = false := by
      rw [(loopBody_app glm fp w s g).2.2.2.2, hs]
      exact hpre g (List.mem_cons_self _ _)
    have := ih (loopBody glm fp w s g).1 hg (fun x hx => hpre x (List.mem_cons_of_mem _ hx))
    obtain ⟨h1, h2, h3, body, h4⟩ := this
    simp only [List.cons_append, mainLoop_cons, hg, Bool.false_eq_true, if_false]
    refine ⟨h1, by simp [h2], by rw [h3], ?_⟩
    exact ⟨(loopBody glm fp w s g).2 ++ [Event.glfwWindowShouldClose w] ++ body, by
      simp only [h4, List.append_assoc]⟩

/-- The events of `InitProgram` contain no render call and no `exit`. -/
theorem InitProgram_quiet (vd fd : ShaderDriver) (pd : ProgramDriver)
    (vb : List Nat) (vl : Nat) (fb : List Nat) (fl : Nat) :
    (InitProgram vd fd pd vb vl fb fl).trace.all Event.isQuiet = true := by
  simp only [InitProgram, InitShader, PrintShaderInfoLog, PrintProgramInfoLog]
  split_ifs <;> rfl

/-- The events of `generateBuffers` contain no render call and no `exit`. -/
theorem generateBuffers_quiet (glm : Glm) (h : BufferHandles) (ex : OpenGLExample)
    (u : UboVS) : (generateBuffers glm h ex u).2.2.all Event.isQuiet = true := rfl

/-- The events of the capability block contain no render call and no `exit`. -/
theorem checkFormats_quiet (n : GLint) (l : List GLint) :
    (checkFormats n l).2.all Event.isQuiet = true := by
  simp only [checkFormats]
  split_ifs <;> rfl

/-- The events of `main` before the render loop contain no render call and no `exit`. -/
theorem setup_quiet (glm : Glm) (env : Env) :
    (bootstrap env.window ++ banner env ++ (setup glm env).2).all Event.isQuiet = true := by
  have h1 := checkFormats_quiet env.NumShaderBinaryFormats env.ShaderBinaryFormats
  have h2 := generateBuffers_quiet glm env.handles
    (OpenGLExample.new env.window env.indeterminate) env.uboVS
  have h3 := InitProgram_quiet env.vert env.frag env.prog env.VertexShaderBinary
    (4 * env.VertexShaderBinary.length) env.FragmentShaderBinary
    (4 * env.FragmentShaderBinary.length)
  simp only [setup, loadAssets, List.all_append, h1, h2, h3, Bool.and_true, Bool.true_and]
  rfl

/-- What `main` does once the context exists and the extension is present. -/
theorem main_run (glm : Glm) (fp : Fp) (env : Env) (fs : List Frame) (hctx : env.ContextCreated)
    (hext : env.GLEW_ARB_gl_spirv = true) :
    main glm fp env fs =
      if (mainLoop glm fp env.window (setup glm env).1 fs).finished then
        { trace := bootstrap env.window ++ banner env ++ (setup glm env).2 ++
            (mainLoop glm fp env.window (setup glm env).1 fs).trace ++
            [Event.glfwDestroyWindow env.window, Event.glfwTerminate,
             Event.exit EXIT_SUCCESS],
          exit := some EXIT_SUCCESS,
          frames := (mainLoop glm fp env.window (setup glm env).1 fs).frames,
          final := some (mainLoop glm fp env.window (setup glm env).1 fs).state }
      else
        { trace := bootstrap env.window ++ banner env ++ (setup glm env).2 ++
            (mainLoop glm fp env.window (setup glm env).1 fs).trace,
          exit := none,
          frames := (mainLoop glm fp env.window (setup glm env).1 fs).frames,
          final := some (mainLoop glm fp env.window (setup glm env).1 fs).state } := by
  obtain ⟨h1, h2, h3⟩ := hctx
  simp only [main, if_neg h1, if_neg h2, h3, hext, ne_eq, not_true_eq_false, if_false,
    Bool.not_true, Bool.false_eq_true]

/-- The state with which the render loop is entered. -/
theorem setup_state (glm : Glm) (env : Env) :
    (setup glm env).1.app.rotation = ⟨0, 0, 0⟩ ∧ (setup glm env).1.app.zoom = -2 ∧
    (setup glm env).1.shouldClose = false ∧
    (setup glm env).1.lastFrameTime = env.lastFrameTime ∧
    (setup glm env).1.app.Program =
      (InitProgram env.vert env.frag env.prog env.VertexShaderBinary
        (4 * env.VertexShaderBinary.length) env.FragmentShaderBinary
        (4 * env.FragmentShaderBinary.length)).ret :=
  ⟨rfl, rfl, rfl, rfl, rfl⟩

/-- In a run of `main` that reaches the render loop there is one draw call, one swap and
one `glUseProgram` of the stored program per executed frame. -/
theorem main_counts (glm : Glm) (fp : Fp) (env : Env) (fs : List Frame) (hctx : env.ContextCreated)
    (hext : env.GLEW_ARB_gl_spirv = true) :
    (main glm fp env fs).trace.countP Event.isDrawCall = (main glm fp env fs).frames ∧
    (main glm fp env fs).trace.countP Event.isSwap = (main glm fp env fs).frames ∧
    (main glm fp env fs).trace.countP (Event.isUseProgram (setup glm env).1.app.Program) =
      (main glm fp env fs).frames := by
  have hq := setup_quiet glm env
  rw [List.all_eq_true] at hq
  have h0 := countP_of_no_render _ (fun e he => by
    have := hq e he
    simp only [Event.isQuiet, Bool.and_eq_true, Bool.not_eq_true'] at this
    exact this.1) (setup glm env).1.app.Program
  have hl := mainLoop_counts glm fp env.window fs (setup glm env).1
  rw [main_run glm fp env fs hctx hext]
  split_ifs <;>
  simp [List.countP_append, List.countP_cons, h0.1, h0.2.1, h0.2.2, hl.1, hl.2.1, hl.2.2,
    Event.isDrawCall, Event.isSwap, Event.isUseProgram] <;>
  simp only [List.countP_append] at h0 <;> omega

/-! ### Claims about whole runs of the shader-pipeline variant -/

/-- The scan finds the SPIR-V format exactly when it occurs at an index that the loop
visits. -/
theorem scanFormats_true (n : GLint) (l : List GLint) (fuel i : Nat) :
    scanFormats n l fuel i false = true ↔
      ∃ j, i ≤ j ∧ j < i + fuel ∧ (j : Int) < n ∧
        l[j]? = some GL_SHADER_BINARY_FORMAT_SPIR_V := by
  induction fuel generalizing i with
  | zero =>
    simp only [scanFormats, Bool.false_eq_true, false_iff]
    rintro ⟨j, h1, h2, -⟩
    omega
  | succ fuel ih =>
    simp only [scanFormats]
    split_ifs with h1 h2
    · simp only [true_iff]
      exact ⟨i, le_refl _, by omega, h1, h2⟩
    · rw [ih (i + 1)]
      constructor
      · rintro ⟨j, a, b, c, d⟩
        exact ⟨j, by omega, by omega, c, d⟩
      · rintro ⟨j, a, b, c, d⟩
        have : j ≠ i := by
          rintro rfl
          exact h2 d
        exact ⟨j, by omega, by omega, c, d⟩
    · simp only [Bool.false_eq_true, false_iff]
      rintro ⟨j, a, -, c, -⟩
      omega

/-- C8: the scan sets `HasSpirvShaderBinaryFormat` exactly when the reported count is
positive and `GL_SHADER_BINARY_FORMAT_SPIR_V` occurs among the first `n` entries of the
list; the warning is printed exactly when the flag is false; and in both cases `main` goes on
to `generateBuffers` and `loadAssets` without calling `exit`. -/
theorem format_scan (n : GLint) (l : List GLint) (glm : Glm) (fp : Fp) (env : Env)
    (fs : List Frame) (hctx : env.ContextCreated) (hext : env.GLEW_ARB_gl_spirv = true) :
    ((checkFormats n l).1 = true ↔
      (0 < n ∧ GL_SHADER_BINARY_FORMAT_SPIR_V ∈ l.take n.toNat)) ∧
    (Event.cout ["!! SHADER_BINARY_FORMAT_SPIR_V is not include in SHADER_BINARY_FORMATS."] ∈
        (checkFormats n l).2 ↔ (checkFormats n l).1 = false) ∧
    (∃ rest, (main glm fp env fs).trace =
      bootstrap env.window ++ banner env ++
        (checkFormats env.NumShaderBinaryFormats env.ShaderBinaryFormats).2 ++
        [Event.glfwSwapInterval 0] ++
        (generateBuffers glm env.handles (OpenGLExample.new env.window env.indeterminate)
          env.uboVS).2.2 ++
        (loadAssets
          (generateBuffers glm env.handles (OpenGLExample.new env.window env.indeterminate)
            env.uboVS).1
          env.vert env.frag env.prog env.VertexShaderBinary env.FragmentShaderBinary).2 ++
        rest) ∧
    ((bootstrap env.window ++ banner env ++ (setup glm env).2).all
      (fun e => !e.isExit) = true) ∧
    ((main glm fp env fs).exit = none ∨ (main glm fp env fs).exit = some EXIT_SUCCESS) := by
  refine ⟨?_, ?_, ?_, ?_, ?_⟩
  · have hflag : (checkFormats n l).1 =
        (if n > 0 then scanFormats n l n.toNat 0 false else false) := by
      simp only [checkFormats]
      split_ifs <;> simp_all
    rw [hflag]
    split_ifs with hn
    · rw [scanFormats_true, List.mem_iff_getElem?]
      constructor
      · rintro ⟨j, -, b, c, d⟩
        exact ⟨hn, j, by rw [List.getElem?_take, if_pos (Int.lt_toNat.2 c)]; exact d⟩
      · rintro ⟨-, j, hj⟩
        rw [List.getElem?_take] at hj
        split_ifs at hj with hlt
        exact ⟨j, Nat.zero_le _, by omega, Int.lt_toNat.1 hlt, hj⟩
    · simp [hn]
  · simp only [checkFormats]
    split_ifs <;> simp_all
  · rw [main_run glm fp env fs hctx hext]
    split_ifs
    · exact ⟨_, by simp only [setup, List.append_assoc]; rfl⟩
    · exact ⟨_, by simp only [setup, List.append_assoc]; rfl⟩
  · have hq := setup_quiet glm env
    rw [List.all_eq_true] at hq ⊢
    intro e he
    have := hq e he
    simp only [Event.isQuiet, Bool.and_eq_true] at this
    exact this.2
  · rw [main_run glm fp env fs hctx hext]
    split_ifs
    · exact Or.inr rfl
    · exact Or.inl rfl

/-- Witness of `format_scan`: the sample platform, which lists the SPIR-V format. -/
theorem format_scan_witness :
    ((checkFormats 2 [5, GL_SHADER_BINARY_FORMAT_SPIR_V]).1 = true ↔
      ((0 : GLint) < 2 ∧
        GL_SHADER_BINARY_FORMAT_SPIR_V ∈ [5, GL_SHADER_BINARY_FORMAT_SPIR_V].take (2 : GLint).toNat)) ∧
    ((main sampleGlm ieee (sampleEnv true 1) [idleFrame 1]).exit = none ∨
      (main sampleGlm ieee (sampleEnv true 1) [idleFrame 1]).exit = some EXIT_SUCCESS) :=
  ⟨(format_scan 2 [5, GL_SHADER_BINARY_FORMAT_SPIR_V] sampleGlm ieee (sampleEnv true 1)
      [idleFrame 1] ⟨by decide, by decide, rfl⟩ rfl).1,
    (format_scan 2 [5, GL_SHADER_BINARY_FORMAT_SPIR_V] sampleGlm ieee (sampleEnv true 1)
      [idleFrame 1] ⟨by decide, by decide, rfl⟩ rfl).2.2.2.2⟩

/-- C9: when `InitProgram` returns 0, `loadAssets` stores 0 in `Program`, `main` enters the
render loop all the same (it executes the first frame and does not exit with a failure
status), and every executed frame calls `glUseProgram(0)` and issues the draw call. -/
theorem failed_build_still_renders (glm : Glm) (fp : Fp) (env : Env) (fs : List Frame)
    (hctx : env.ContextCreated) (hext : env.GLEW_ARB_gl_spirv = true)
    (hfail : (InitProgram env.vert env.frag env.prog env.VertexShaderBinary
      (4 * env.VertexShaderBinary.length) env.FragmentShaderBinary
      (4 * env.FragmentShaderBinary.length)).ret = 0) :
    (∀ ex : OpenGLExample,
      (loadAssets ex env.vert env.frag env.prog env.VertexShaderBinary
        env.FragmentShaderBinary).1.Program = 0) ∧
    (setup glm env).1.app.Program = 0 ∧
    (fs ≠ [] → 1 ≤ (main glm fp env fs).frames) ∧
    (main glm fp env fs).trace.countP (Event.isUseProgram 0) = (main glm fp env fs).frames ∧
    (main glm fp env fs).trace.countP Event.isDrawCall = (main glm fp env fs).frames ∧
    (∀ (s : LoopState) (f : Frame), s.app.Program = 0 →
      Event.glUseProgram 0 ∈ (loopBody glm fp env.window s f).2 ∧
      Event.glDrawArrays GLenum.GL_TRIANGLES 0 3 ∈ (loopBody glm fp env.window s f).2 ∧
      (loopBody glm fp env.window s f).1.app.Program = 0) ∧
    ((main glm fp env fs).exit = none ∨ (main glm fp env fs).exit = some EXIT_SUCCESS) := by
  have hp : (setup glm env).1.app.Program = 0 := by
    rw [(setup_state glm env).2.2.2.2, hfail]
  have hc := main_counts glm fp env fs hctx hext
  rw [hp] at hc
  refine ⟨fun ex => hfail, hp, ?_, hc.2.2, hc.1, ?_, ?_⟩
  · intro hne
    rw [main_run glm fp env fs hctx hext]
    cases fs with
    | nil => exact absurd rfl hne
    | cons f fs =>
      rw [mainLoop_cons]
      split_ifs <;> simp
  · intro s f hs
    refine ⟨?_, ?_, ?_⟩
    · simp [loopBody, draw, hs]
    · simp [loopBody, draw]
    · rw [(loopBody_app glm fp env.window s f).1, hs]
  · rw [main_run glm fp env fs hctx hext]
    split_ifs
    · exact Or.inr rfl
    · exact Or.inl rfl

/-- Witness of `failed_build_still_renders`: the vertex stage reports `GL_FALSE`. -/
theorem failed_build_still_renders_witness :
    (main sampleGlm ieee (sampleEnv true 0) [idleFrame 1, escapeFrame 2]).trace.countP
        (Event.isUseProgram 0) =
      (main sampleGlm ieee (sampleEnv true 0) [idleFrame 1, escapeFrame 2]).frames ∧
    (main sampleGlm ieee (sampleEnv true 0) [idleFrame 1, escapeFrame 2]).trace.countP
        Event.isDrawCall =
      (main sampleGlm ieee (sampleEnv true 0) [idleFrame 1, escapeFrame 2]).frames :=
  ⟨(failed_build_still_renders sampleGlm ieee (sampleEnv true 0) [idleFrame 1, escapeFrame 2]
      ⟨by decide, by decide, rfl⟩ rfl rfl).2.2.2.1,
    (failed_build_still_renders sampleGlm ieee (sampleEnv true 0) [idleFrame 1, escapeFrame 2]
      ⟨by decide, by decide, rfl⟩ rfl rfl).2.2.2.2.1⟩

end SPIRVShader

namespace ImplementationColorRead

/-! ### The bare-context variant -/

/-- The callbacks run by `glfwPollEvents` make no render call and do not call `exit`. -/
theorem bare_pollEvents_quiet (w : GLFWwindow) (evs : List WindowEvent) (b : Bool) :
    ∀ e ∈ (pollEvents w b evs).2, e.isRenderCall = false ∧ e.isExit = false := by
  induction evs generalizing b with
  | nil => simp [pollEvents]
  | cons ev evs ih =>
    intro e he
    simp only [pollEvents, List.mem_append] at he
    rcases he with he | he
    · cases ev with
      | key k sc a m =>
        simp only [dispatch, key_callback] at he
        split_ifs at he <;> simp at he
        subst he; exact ⟨rfl, rfl⟩
      | framebufferSize x y =>
        simp only [dispatch, framebuffer_size_callback, List.mem_singleton] at he
        subst he; exact ⟨rfl, rfl⟩
      | close => simp [dispatch] at he
    · exact ih _ e he

/-- The should-close flag after `glfwPollEvents`: it is set when it was set before, or when
one of the delivered events is a close request or a press of Escape. -/
theorem bare_pollEvents_flag (w : GLFWwindow) (evs : List WindowEvent) (b : Bool) :
    (pollEvents w b evs).1 = (b || evs.any WindowEvent.requestsClose) := by
  induction evs generalizing b with
  | nil => simp [pollEvents]
  | cons ev evs ih =>
    simp only [pollEvents, ih, List.any_cons]
    cases ev with
    | key k sc a m =>
      simp only [dispatch, key_callback, WindowEvent.requestsClose]
      split_ifs with h <;> simp [h]
    | framebufferSize x y => simp [dispatch, WindowEvent.requestsClose]
    | close => simp [dispatch, WindowEvent.requestsClose]

/-- One iteration of the loop body makes exactly one buffer swap and no draw call. -/
theorem bare_loopBody_counts (fp : Fp) (w : GLFWwindow) (s : LoopState) (f : Frame) :
    (loopBody fp w s f).2.countP Event.isSwap = 1 ∧
    (loopBody fp w s f).2.countP Event.isDrawCall = 0 := by
  have hp := SPIRVShader.countP_of_no_render _
    (fun e he => (bare_pollEvents_quiet w f.events s.shouldClose e he).1) 0
  simp only [loopBody, draw, List.countP_append, hp.1, hp.2.1]
  refine ⟨?_, ?_⟩ <;> split_ifs <;>
    simp [List.countP_cons, Event.isDrawCall, Event.isSwap]

/-- The should-close flag after the loop body. -/
theorem bare_loopBody_flag (fp : Fp) (w : GLFWwindow) (s : LoopState) (f : Frame) :
    (loopBody fp w s f).1.shouldClose = (pollEvents w s.shouldClose f.events).1 := rfl

/-- One unfolding of the `do ... while` loop. -/
theorem bare_mainLoop_cons (fp : Fp) (w : GLFWwindow) (s : LoopState) (f : Frame) (fs : List Frame) :
    mainLoop fp w s (f :: fs) =
      if (loopBody fp w s f).1.shouldClose then
        { state := (loopBody fp w s f).1, frames := 1, finished := true,
          trace := (loopBody fp w s f).2 ++ [Event.glfwWindowShouldClose w] }
      else
        { mainLoop fp w (loopBody fp w s f).1 fs with
          frames := (mainLoop fp w (loopBody fp w s f).1 fs).frames + 1,
          trace := (loopBody fp w s f).2 ++ [Event.glfwWindowShouldClose w] ++
            (mainLoop fp w (loopBody fp w s f).1 fs).trace } := by
  simp only [mainLoop]

/-- In the events of the render loop there is one swap per executed frame, and no draw
call. -/
theorem bare_mainLoop_counts (fp : Fp) (w : GLFWwindow) (fs : List Frame) (s : LoopState) :
    (mainLoop fp w s fs).trace.countP Event.isSwap = (mainLoop fp w s fs).frames ∧
    (mainLoop fp w s fs).trace.countP Event.isDrawCall = 0 := by
  induction fs generalizing s with
  | nil => simp [mainLoop]
  | cons f fs ih =>
    have hb := bare_loopBody_counts fp w s f
    have ih2 := ih (loopBody fp w s f).1
    rw [bare_mainLoop_cons]
    split_ifs with h
    · simp [List.countP_append, List.countP_cons, hb.1, hb.2, Event.isDrawCall,
        Event.isSwap]
    · simp only [List.countP_append, hb.1, hb.2, ih2.1, ih2.2]
      simp [List.countP_cons, Event.isDrawCall, Event.isSwap]
      omega

/-- The loop runs through frames that do not set the should-close flag and ends with the
first frame that sets it, whatever frames might follow. -/
theorem bare_mainLoop_close (fp : Fp) (w : GLFWwindow) (pre : List Frame) (f : Frame)
    (rest : List Frame) (s : LoopState) (hs : s.shouldClose = false)
    (hpre : ∀ g ∈ pre, (pollEvents w false g.events).1 = false)
    (hf : (pollEvents w false f.events).1 = true) :
    (mainLoop fp w s (pre ++ f :: rest)).finished = true ∧
    (mainLoop fp w s (pre ++ f :: rest)).frames = pre.length + 1 ∧
    mainLoop fp w s (pre ++ f :: rest) = mainLoop fp w s (pre ++ [f]) ∧
    ∃ body, (mainLoop fp w s (pre ++ f :: rest)).trace =
      body ++ [Event.glfwWindowShouldClose w] := by
  induction pre generalizing s with
  | nil =>
    have hb : (loopBody fp w s f).1.shouldClose = true := by
      rw [bare_loopBody_flag, hs, hf]
    simp only [List.nil_append, bare_mainLoop_cons, hb, if_true, true_and]
    exact ⟨rfl, _, rfl⟩
  | cons g pre ih =>
    have hg : (loopBody fp w s g).1.shouldClose = false := by
      rw [bare_loopBody_flag, hs]
      exact hpre g (List.mem_cons_self _ _)
    have := ih (loopBody fp w s g).1 hg (fun x hx => hpre x (List.mem_cons_of_mem _ hx))
    obtain ⟨h1, h2, h3, body, h4⟩ := this
    simp only [List.cons_append, bare_mainLoop_cons, hg, Bool.false_eq_true, if_false]
    refine ⟨h1, by simp [h2], by rw [h3], ?_⟩
    exact ⟨(loopBody fp w s g).2 ++ [Event.glfwWindowShouldClose w] ++ body, by
      simp only [h4, List.append_assoc]⟩

/-- What `main` does once the context exists and the extension is present. -/
theorem bare_main_run (fp : Fp) (env : Env) (fs : List Frame) (hctx : env.ContextCreated)
    (hext : env.GLEW_ARB_gl_spirv = true) :
    main fp env fs =
      if (mainLoop fp env.window (setup env).1 fs).finished then
        { trace := bootstrap env.window ++ banner env ++ (setup env).2 ++
            (mainLoop fp env.window (setup env).1 fs).trace ++
            [Event.glfwDestroyWindow env.window, Event.glfwTerminate,
             Event.exit EXIT_SUCCESS],
          exit := some EXIT_SUCCESS,
          frames := (mainLoop fp env.window (setup env).1 fs).frames,
          final := some (mainLoop fp env.window (setup env).1 fs).state }
      else
        { trace := bootstrap env.window ++ banner env ++ (setup env).2 ++
            (mainLoop fp env.window (setup env).1 fs).trace,
          exit := none,
          frames := (mainLoop fp env.window (setup env).1 fs).frames,
          final := some (mainLoop fp env.window (setup env).1 fs).state } := by
  obtain ⟨h1, h2, h3⟩ := hctx
  simp only [main, if_neg h1, if_neg h2, h3, hext, ne_eq, not_true_eq_false, if_false,
    Bool.not_true, Bool.false_eq_true]

/-- The events of `main` before the render loop contain no swap. -/
theorem bare_setup_no_swap (env : Env) :
    (bootstrap env.window ++ banner env ++ (setup env).2).countP Event.isSwap = 0 := rfl

end ImplementationColorRead

/-! ### Claims about both variants -/

/-- C5: in both variants, when the context is created but the `GL_ARB_gl_spirv` flag is
absent, `main` writes the error to `std::cerr`, calls `glfwDestroyWindow` and
`glfwTerminate`, and exits with status -1; no buffer, vertex array, shader or program is
created, no render call is made and no iteration of the render loop is executed. -/
theorem missing_extension_exits (glm : Glm) (fp : Fp) (env : SPIRVShader.Env) (fs : List Frame)
    (env2 : ImplementationColorRead.Env) (fs2 : List Frame)
    (hctx : env.ContextCreated) (hext : env.GLEW_ARB_gl_spirv = false)
    (hctx2 : env2.ContextCreated) (hext2 : env2.GLEW_ARB_gl_spirv = false) :
    ((SPIRVShader.main glm fp env fs).trace =
        SPIRVShader.bootstrap env.window ++ SPIRVShader.banner env ++
          [Event.cerr ["This examples requires support for SPIR-V (GL_ARB_gl_spirv)!"],
           Event.glfwDestroyWindow env.window, Event.glfwTerminate, Event.exit (-1)] ∧
      (SPIRVShader.main glm fp env fs).exit = some (-1) ∧
      (SPIRVShader.main glm fp env fs).exit ≠ some 0 ∧
      (SPIRVShader.main glm fp env fs).frames = 0 ∧
      (SPIRVShader.main glm fp env fs).trace.all
        (fun e => !e.isCreateCall && !e.isRenderCall) = true) ∧
    ((ImplementationColorRead.main fp env2 fs2).trace =
        ImplementationColorRead.bootstrap env2.window ++ ImplementationColorRead.banner env2 ++
          [Event.cerr ["This examples requires support for SPIR-V (GL_ARB_gl_spirv)!"],
           Event.glfwDestroyWindow env2.window, Event.glfwTerminate, Event.exit (-1)] ∧
      (ImplementationColorRead.main fp env2 fs2).exit = some (-1) ∧
      (ImplementationColorRead.main fp env2 fs2).exit ≠ some 0 ∧
      (ImplementationColorRead.main fp env2 fs2).frames = 0 ∧
      (ImplementationColorRead.main fp env2 fs2).trace.all
        (fun e => !e.isCreateCall && !e.isRenderCall) = true) := by
  obtain ⟨a1, a2, a3⟩ := hctx
  obtain ⟨b1, b2, b3⟩ := hctx2
  have h1 : SPIRVShader.main glm fp env fs =
      { trace := SPIRVShader.bootstrap env.window ++ SPIRVShader.banner env ++
          [Event.cerr ["This examples requires support for SPIR-V (GL_ARB_gl_spirv)!"],
           Event.glfwDestroyWindow env.window, Event.glfwTerminate, Event.exit (-1)],
        exit := some (-1), frames := 0, final := none } := by
    simp only [SPIRVShader.main, if_neg a1, if_neg a2, a3, hext, ne_eq, not_true_eq_false,
      if_false, Bool.not_false, if_true]
  have h2 : ImplementationColorRead.main fp env2 fs2 =
      { trace := ImplementationColorRead.bootstrap env2.window ++
          ImplementationColorRead.banner env2 ++
          [Event.cerr ["This examples requires support for SPIR-V (GL_ARB_gl_spirv)!"],
           Event.glfwDestroyWindow env2.window, Event.glfwTerminate, Event.exit (-1)],
        exit := some (-1), frames := 0, final := none } := by
    simp only [ImplementationColorRead.main, if_neg b1, if_neg b2, b3, hext2, ne_eq,
      not_true_eq_false, if_false, Bool.not_false, if_true]
  rw [h1, h2]
  have hne : (some (-1) : Option Int) ≠ some 0 := by decide
  exact ⟨⟨rfl, rfl, hne, rfl, rfl⟩, ⟨rfl, rfl, hne, rfl, rfl⟩⟩

/-- Witness of `missing_extension_exits`: the sample platforms without the extension. -/
theorem missing_extension_exits_witness :
    (SPIRVShader.main SPIRVShader.sampleGlm ieee (SPIRVShader.sampleEnv false 1)
      [idleFrame 1]).exit = some (-1) ∧
    (ImplementationColorRead.main ieee (ImplementationColorRead.sampleEnv false)
      [idleFrame 1]).exit = some (-1) :=
  ⟨(missing_extension_exits SPIRVShader.sampleGlm ieee (SPIRVShader.sampleEnv false 1)
      [idleFrame 1] (ImplementationColorRead.sampleEnv false) [idleFrame 1]
      ⟨by decide, by decide, rfl⟩ rfl ⟨by decide, by decide, rfl⟩ rfl).1.2.1,
    (missing_extension_exits SPIRVShader.sampleGlm ieee (SPIRVShader.sampleEnv false 1)
      [idleFrame 1] (ImplementationColorRead.sampleEnv false) [idleFrame 1]
      ⟨by decide, by decide, rfl⟩ rfl ⟨by decide, by decide, rfl⟩ rfl).2.2.1⟩

/-- C6: in both variants `key_callback` sets the should-close flag exactly when the key is
Escape and the action is a press, and `glfwPollEvents` leaves the flag set exactly when it
was set or a delivered event requests closing.  When the frames `pre` carry no such request
and the frame `f` carries one, the render loop ends at the condition check of that
iteration: `pre.length + 1` frames are drawn whatever frames would follow, and the run ends
with `glfwWindowShouldClose`, `glfwDestroyWindow`, `glfwTerminate` and `exit(0)`. -/
theorem close_request_ends_loop (glm : Glm) (fp : Fp) (env : SPIRVShader.Env)
    (env2 : ImplementationColorRead.Env) (pre : List Frame) (f : Frame) (rest : List Frame)
    (hctx : env.ContextCreated) (hext : env.GLEW_ARB_gl_spirv = true)
    (hctx2 : env2.ContextCreated) (hext2 : env2.GLEW_ARB_gl_spirv = true)
    (hpre : ∀ g ∈ pre, g.events.any WindowEvent.requestsClose = false)
    (hf : f.events.any WindowEvent.requestsClose = true) :
    (∀ (w : GLFWwindow) (b : Bool) (key scancode action mods : Int),
      (SPIRVShader.key_callback w b key scancode action mods).1 =
        (if key = GLFW_KEY_ESCAPE ∧ action = GLFW_PRESS then true else b) ∧
      (ImplementationColorRead.key_callback w b key scancode action mods).1 =
        (if key = GLFW_KEY_ESCAPE ∧ action = GLFW_PRESS then true else b)) ∧
    (∀ (w : GLFWwindow) (b : Bool) (evs : List WindowEvent),
      (SPIRVShader.pollEvents w b evs).1 = (b || evs.any WindowEvent.requestsClose) ∧
      (ImplementationColorRead.pollEvents w b evs).1 =
        (b || evs.any WindowEvent.requestsClose)) ∧
    ((SPIRVShader.main glm fp env (pre ++ f :: rest)).exit = some 0 ∧
      (SPIRVShader.main glm fp env (pre ++ f :: rest)).frames = pre.length + 1 ∧
      (SPIRVShader.main glm fp env (pre ++ f :: rest)).trace.countP Event.isDrawCall =
        pre.length + 1 ∧
      (SPIRVShader.main glm fp env (pre ++ f :: rest)).trace.countP Event.isSwap =
        pre.length + 1 ∧
      SPIRVShader.main glm fp env (pre ++ f :: rest) = SPIRVShader.main glm fp env (pre ++ [f]) ∧
      ∃ body, (SPIRVShader.main glm fp env (pre ++ f :: rest)).trace =
        body ++ [Event.glfwWindowShouldClose env.window, Event.glfwDestroyWindow env.window,
          Event.glfwTerminate, Event.exit 0]) ∧
    ((ImplementationColorRead.main fp env2 (pre ++ f :: rest)).exit = some 0 ∧
      (ImplementationColorRead.main fp env2 (pre ++ f :: rest)).frames = pre.length + 1 ∧
      (ImplementationColorRead.main fp env2 (pre ++ f :: rest)).trace.countP Event.isSwap =
        pre.length + 1 ∧
      ImplementationColorRead.main fp env2 (pre ++ f :: rest) =
        ImplementationColorRead.main fp env2 (pre ++ [f]) ∧
      ∃ body, (ImplementationColorRead.main fp env2 (pre ++ f :: rest)).trace =
        body ++ [Event.glfwWindowShouldClose env2.window,
          Event.glfwDestroyWindow env2.window, Event.glfwTerminate, Event.exit 0]) := by
  refine ⟨?_, ?_, ?_, ?_⟩
  · intro w b key scancode action mods
    constructor
    · simp only [SPIRVShader.key_callback]; split_ifs <;> rfl
    · simp only [ImplementationColorRead.key_callback]; split_ifs <;> rfl
  · exact fun w b evs =>
      ⟨SPIRVShader.pollEvents_flag w evs b, ImplementationColorRead.bare_pollEvents_flag w evs b⟩
  · have hp : ∀ g ∈ pre, (SPIRVShader.pollEvents env.window false g.events).1 = false := by
      intro g hg
      rw [SPIRVShader.pollEvents_flag, hpre g hg]; rfl
    have hq : (SPIRVShader.pollEvents env.window false f.events).1 = true := by
      rw [SPIRVShader.pollEvents_flag, hf]; rfl
    obtain ⟨c1, c2, c3, body, c4⟩ := SPIRVShader.mainLoop_close glm fp env.window pre f rest
      (SPIRVShader.setup glm env).1 rfl hp hq
    have hc := SPIRVShader.main_counts glm fp env (pre ++ f :: rest) hctx hext
    have hm := SPIRVShader.main_run glm fp env (pre ++ f :: rest) hctx hext
    have hm2 := SPIRVShader.main_run glm fp env (pre ++ [f]) hctx hext
    rw [if_pos c1] at hm
    have hfr : (SPIRVShader.main glm fp env (pre ++ f :: rest)).frames = pre.length + 1 := by
      rw [hm]; exact c2
    refine ⟨by rw [hm]; rfl, hfr, by rw [hc.1, hfr], by rw [hc.2.1, hfr], ?_, ?_⟩
    · rw [hm, hm2, c3]
      rw [c3] at c1
      rw [if_pos c1]
    · exact ⟨SPIRVShader.bootstrap env.window ++ SPIRVShader.banner env ++
        (SPIRVShader.setup glm env).2 ++ body, by
          rw [hm]
          simp only [c4, List.append_assoc, List.singleton_append, EXIT_SUCCESS]⟩
  · have hp : ∀ g ∈ pre,
        (ImplementationColorRead.pollEvents env2.window false g.events).1 = false := by
      intro g hg
      rw [ImplementationColorRead.bare_pollEvents_flag, hpre g hg]; rfl
    have hq : (ImplementationColorRead.pollEvents env2.window false f.events).1 = true := by
      rw [ImplementationColorRead.bare_pollEvents_flag, hf]; rfl
    obtain ⟨c1, c2, c3, body, c4⟩ := ImplementationColorRead.bare_mainLoop_close fp env2.window pre f
      rest (ImplementationColorRead.setup env2).1 rfl hp hq
    have hm := ImplementationColorRead.bare_main_run fp env2 (pre ++ f :: rest) hctx2 hext2
    have hm2 := ImplementationColorRead.bare_main_run fp env2 (pre ++ [f]) hctx2 hext2
    have hl := ImplementationColorRead.bare_mainLoop_counts fp env2.window (pre ++ f :: rest)
      (ImplementationColorRead.setup env2).1
    have h0 := ImplementationColorRead.bare_setup_no_swap env2
    rw [if_pos c1] at hm
    refine ⟨by rw [hm]; rfl, by rw [hm]; exact c2, ?_, ?_, ?_⟩
    · rw [hm]
      simp only [List.countP_append, h0, hl.1, c2]
      simp [List.countP_cons, Event.isSwap]
    · rw [hm, hm2, c3]
      rw [c3] at c1
      rw [if_pos c1]
    · exact ⟨ImplementationColorRead.bootstrap env2.window ++
        ImplementationColorRead.banner env2 ++ (ImplementationColorRead.setup env2).2 ++ body,
        by
          rw [hm]
          simp only [c4, List.append_assoc, List.singleton_append, EXIT_SUCCESS]⟩

/-- Witness of `close_request_ends_loop`: one idle frame, then a frame with an Escape press,
then a frame that is never reached. -/
theorem close_request_ends_loop_witness :
    (SPIRVShader.main SPIRVShader.sampleGlm ieee (SPIRVShader.sampleEnv true 1)
      ([idleFrame 1] ++ escapeFrame 2 :: [idleFrame 3])).frames = [idleFrame 1].length + 1 ∧
    (ImplementationColorRead.main ieee (ImplementationColorRead.sampleEnv true)
      ([idleFrame 1] ++ escapeFrame 2 :: [idleFrame 3])).exit = some 0 :=
  ⟨(close_request_ends_loop SPIRVShader.sampleGlm ieee (SPIRVShader.sampleEnv true 1)
      (ImplementationColorRead.sampleEnv true) [idleFrame 1] (escapeFrame 2) [idleFrame 3]
      ⟨by decide, by decide, rfl⟩ rfl ⟨by decide, by decide, rfl⟩ rfl
      (by decide) (by decide)).2.2.1.2.1,
    (close_request_ends_loop SPIRVShader.sampleGlm ieee (SPIRVShader.sampleEnv true 1)
      (ImplementationColorRead.sampleEnv true) [idleFrame 1] (escapeFrame 2) [idleFrame 3]
      ⟨by decide, by decide, rfl⟩ rfl ⟨by decide, by decide, rfl⟩ rfl
      (by decide) (by decide)).2.2.2.1⟩

end Ogglepie
